import Mathlib

/-!
Shallow embedding of the `ingestlib` mission-data validation subsystem
(`scripts/ingest/ingestlib/validation.py`, `records.py`, `time.py`,
`utils.py`) and proofs about it.

Modelling conventions:
* Python values flowing through the JSON-shaped datasets are embedded as the
  inductive `Json`.  Numbers are carried as rationals; the Python `int`/`float`
  distinction is not tracked (it is observable only through `str()` output and
  `type(...).__name__` strings placed inside issue contexts, never through the
  control flow of the validator).
* Python `str()` / `repr()` of values and `float(str)` coercion are builtins
  external to the repository; they are modelled by `pyRepr`, `pyStr` and
  `pyFloatOfString` below, exact on the scalar cases the validator exercises.
* The filesystem consulted by the autopilot checks is an explicit parameter
  `fs : FileSystem`.  A script file is `missing` (the `Path.is_file` test
  fails), `unreadable` (reading or JSON-parsing raises, caught by the
  validator), or `script payload` (the parsed JSON object).  Payloads are
  objects because `validate_mission_data` only runs to completion on object
  payloads (`payload.get(...)` raises on anything else, propagating out of the
  function).
-/

namespace Ingest

/-- Embedded Python/JSON value. -/
inductive Json where
  | null
  | bool (b : Bool)
  | num (q : ℚ)
  | str (s : String)
  | arr (items : List Json)
  | obj (fields : List (String × Json))

/-- Induction on `Json` with membership hypotheses for the nested lists. -/
theorem Json.recMem {motive : Json → Prop}
    (hnull : motive .null)
    (hbool : ∀ b, motive (.bool b))
    (hnum : ∀ q, motive (.num q))
    (hstr : ∀ s, motive (.str s))
    (harr : ∀ items, (∀ v ∈ items, motive v) → motive (.arr items))
    (hobj : ∀ fields, (∀ p ∈ fields, motive p.2) → motive (.obj fields)) :
    ∀ v, motive v := by
  have H : ∀ n v, sizeOf v ≤ n → motive v := by
    intro n
    induction n with
    | zero =>
      intro v hv
      cases v <;> simp_all
    | succ n ih =>
      intro v hv
      cases v with
      | null => exact hnull
      | bool b => exact hbool b
      | num q => exact hnum q
      | str s => exact hstr s
      | arr items =>
        refine harr items fun x hx => ih x ?_
        have h1 := List.sizeOf_lt_of_mem hx
        have h2 : sizeOf (Json.arr items) = 1 + sizeOf items := by simp
        omega
      | obj fields =>
        refine hobj fields fun p hp => ih p.2 ?_
        have h1 := List.sizeOf_lt_of_mem hp
        have h2 : sizeOf (Json.obj fields) = 1 + sizeOf fields := by simp
        have h3 : sizeOf p.2 < sizeOf p := by
          cases p with
          | mk k v => simp
        omega
  exact fun v => H (sizeOf v) v le_rfl

mutual

def Json.beq : Json → Json → Bool
  | .null, .null => true
  | .bool a, .bool b => a == b
  | .num a, .num b => a == b
  | .str a, .str b => a == b
  | .arr xs, .arr ys => Json.beqList xs ys
  | .obj xs, .obj ys => Json.beqFields xs ys
  | _, _ => false

def Json.beqList : List Json → List Json → Bool
  | [], [] => true
  | x :: xs, y :: ys => Json.beq x y && Json.beqList xs ys
  | _, _ => false

def Json.beqFields : List (String × Json) → List (String × Json) → Bool
  | [], [] => true
  | (k, v) :: xs, (k2, v2) :: ys => k == k2 && Json.beq v v2 && Json.beqFields xs ys
  | _, _ => false

end

theorem Json.beq_iff : ∀ a b : Json, Json.beq a b = true ↔ a = b := by
  intro a
  induction a using Json.recMem with
  | hnull => intro b; cases b <;> simp [Json.beq]
  | hbool x => intro b; cases b <;> simp [Json.beq]
  | hnum x => intro b; cases b <;> simp [Json.beq]
  | hstr x => intro b; cases b <;> simp [Json.beq]
  | harr items ih =>
    intro b
    cases b with
    | arr ys =>
      simp only [Json.beq, Json.arr.injEq]
      induction items generalizing ys with
      | nil => cases ys <;> simp [Json.beqList]
      | cons x xs ihl =>
        cases ys with
        | nil => simp [Json.beqList]
        | cons y ys =>
          have hx := ih x (by simp)
          have hrest := ihl (fun v hv => ih v (by simp [hv])) ys
          simp [Json.beqList, Bool.and_eq_true, hx, hrest]
    | null => simp [Json.beq]
    | bool x => simp [Json.beq]
    | num x => simp [Json.beq]
    | str x => simp [Json.beq]
    | obj x => simp [Json.beq]
  | hobj fields ih =>
    intro b
    cases b with
    | obj ys =>
      simp only [Json.beq, Json.obj.injEq]
      induction fields generalizing ys with
      | nil => cases ys <;> simp [Json.beqFields]
      | cons x xs ihl =>
        cases ys with
        | nil => simp [Json.beqFields]
        | cons y ys =>
          have hrest := ihl (fun p hp => ih p (List.mem_cons_of_mem _ hp)) ys
          obtain ⟨k, v⟩ := x
          obtain ⟨k2, v2⟩ := y
          have hx : v.beq v2 = true ↔ v = v2 := ih (k, v) (by simp) v2
          simp only [Json.beqFields, Bool.and_eq_true, beq_iff_eq, hx, hrest,
            List.cons.injEq, Prod.mk.injEq]
    | null => simp [Json.beq]
    | bool x => simp [Json.beq]
    | num x => simp [Json.beq]
    | str x => simp [Json.beq]
    | arr x => simp [Json.beq]

instance : DecidableEq Json :=
  fun a b => decidable_of_iff (Json.beq a b = true) (Json.beq_iff a b)

/-- Python truthiness of an embedded value. -/
def Json.truthy : Json → Bool
  | .null => false
  | .bool b => b
  | .num q => decide (q ≠ 0)
  | .str s => decide (s ≠ "")
  | .arr items => !items.isEmpty
  | .obj fields => !fields.isEmpty

/-- `a or b` in Python. -/
def pyOr (a b : Json) : Json := if a.truthy then a else b

/-- `dict.get(key)` with default `None`: first binding wins (parsed JSON
objects have unique keys). -/
def objGet (fields : List (String × Json)) (key : String) : Json :=
  match fields with
  | [] => .null
  | (k, v) :: rest => if k = key then v else objGet rest key

/-- `key in dict`. -/
def objHasKey (fields : List (String × Json)) (key : String) : Bool :=
  match fields with
  | [] => false
  | (k, _) :: rest => k = key || objHasKey rest key

/-- `isinstance(v, dict)`. -/
def Json.isObj : Json → Bool
  | .obj _ => true
  | _ => false

/-- `type(v).__name__` (the `int`/`float` split is approximated by the
denominator test, see the module conventions). -/
def pyTypeName : Json → String
  | .null => "NoneType"
  | .bool _ => "bool"
  | .num q => if q.den = 1 then "int" else "float"
  | .str _ => "str"
  | .arr _ => "list"
  | .obj _ => "dict"

mutual

/-- Modelled Python `repr()` of an embedded value (exact on `None`, `bool`
and `str` apart from escaping; numeric and container output approximated). -/
def pyRepr : Json → String
  | .null => "None"
  | .bool true => "True"
  | .bool false => "False"
  | .num q => if q.den = 1 then toString q.num else toString q
  | .str s => "'" ++ s ++ "'"
  | .arr items => "[" ++ String.intercalate ", " (pyReprList items) ++ "]"
  | .obj fields => "\x7b" ++ String.intercalate ", " (pyReprFields fields) ++ "\x7d"

def pyReprList : List Json → List String
  | [] => []
  | v :: rest => pyRepr v :: pyReprList rest

def pyReprFields : List (String × Json) → List String
  | [] => []
  | (k, v) :: rest => ("'" ++ k ++ "': " ++ pyRepr v) :: pyReprFields rest

end

/-- Modelled Python `str()`. -/
def pyStr : Json → String
  | .str s => s
  | v => pyRepr v

/-- ASCII whitespace stripped by Python `str.strip()` (unicode spaces not
modelled). -/
def pySpace (c : Char) : Bool :=
  c = ' ' || c = '\t' || c = '\n' || c = '\r' || c = '\x0b' || c = '\x0c'

/-- Python `str.strip()`. -/
def pyStrip (s : String) : String :=
  ⟨((s.data.dropWhile pySpace).reverse.dropWhile pySpace).reverse⟩

/-- `utils.clean_string`: stripped string or `None` if blank. -/
def clean_string : Json → Option String
  | .null => none
  | .str s => let t := pyStrip s; if t = "" then none else some t
  | v => let t := pyStrip (pyStr v); if t = "" then none else some t

/-- Python truthiness of an `Optional[str]` (`None` and `""` are falsy). -/
def optStrTruthy : Option String → Bool
  | none => false
  | some s => s ≠ ""

/-- Modelled Python `float(str)` on plain decimal literals (exponents,
`inf`/`nan` spellings not modelled): optional sign, then digits with an
optional fractional part, at least one digit overall. -/
def pyFloatOfString (s : String) : Option ℚ :=
  let t := (pyStrip s).data
  let (sign, body) :=
    match t with
    | '-' :: rest => ((-1 : ℚ), rest)
    | '+' :: rest => ((1 : ℚ), rest)
    | _ => ((1 : ℚ), t)
  let intPart := body.takeWhile Char.isDigit
  let rest := body.dropWhile Char.isDigit
  let intVal : ℚ := (intPart.foldl (fun a c => 10 * a + (c.toNat - 48)) 0 : ℕ)
  match rest with
  | [] => if intPart = [] then none else some (sign * intVal)
  | '.' :: fracChars =>
      if fracChars.all Char.isDigit ∧ (intPart ≠ [] ∨ fracChars ≠ []) then
        let fracVal : ℚ :=
          ((fracChars.foldl (fun a c => 10 * a + (c.toNat - 48)) 0 : ℕ) : ℚ) /
            (10 ^ fracChars.length : ℚ)
        some (sign * (intVal + fracVal))
      else none
  | _ => none

/-- Modelled Python `float(value)` as used on autopilot command times:
`None`/containers raise `TypeError`, non-numeric strings raise `ValueError`
(both encoded as `none`); `bool` is an `int` subclass. -/
def pyFloat : Json → Option ℚ
  | .null => none
  | .bool b => some (if b then 1 else 0)
  | .num q => some q
  | .str s => pyFloatOfString s
  | .arr _ => none
  | .obj _ => none

/-! ### Python dict helpers

Python dicts preserve insertion order; a comprehension `{k(x): v(x) for x in l}`
lets a later binding overwrite an earlier one in place.  Dicts are embedded as
association lists with unique keys. -/

/-- `d[k] = v` on a dict: overwrite in place, else append. -/
def dictSet {α : Type} (d : List (String × α)) (k : String) (v : α) :
    List (String × α) :=
  match d with
  | [] => [(k, v)]
  | (k2, v2) :: rest => if k2 = k then (k, v) :: rest else (k2, v2) :: dictSet rest k v

/-- Dict built from a binding list, later bindings overwriting earlier ones. -/
def dictOf {α : Type} (l : List (String × α)) : List (String × α) :=
  l.foldl (fun d p => dictSet d p.1 p.2) []

/-- Dict lookup (keys are unique, so first match). -/
def dictGet? {α : Type} (d : List (String × α)) (k : String) : Option α :=
  match d with
  | [] => none
  | (k2, v) :: rest => if k2 = k then some v else dictGet? rest k

/-- `k in d`. -/
def dictHasKey {α : Type} (d : List (String × α)) (k : String) : Bool :=
  (dictGet? d k).isSome

/-- `d.setdefault(k, []).append(v)` used by `MissionData.checklist_index`. -/
def groupAdd {α : Type} (d : List (String × List α)) (k : String) (v : α) :
    List (String × List α) :=
  match d with
  | [] => [(k, [v])]
  | (k2, vs) :: rest =>
      if k2 = k then (k2, vs ++ [v]) :: rest else (k2, vs) :: groupAdd rest k v

/-! ### Record types (`records.py`)

Fields keep the source names and order; Python `float` fields are carried as
rationals, `Dict[str, Any]` fields as embedded JSON objects. -/

/-- `records.EventRecord`. -/
structure EventRecord where
  id : String
  phase : String
  get_open : Option String
  get_close : Option String
  get_open_seconds : Option ℚ
  get_close_seconds : Option ℚ
  craft : Option String
  system : Option String
  prerequisites : List String
  autopilot_id : Option String
  checklist_id : Option String
  success_effects : Json
  failure_effects : Json
  notes : Option String
  raw : List (String × Json)
deriving DecidableEq

/-- `records.ChecklistEntry`. -/
structure ChecklistEntry where
  checklist_id : String
  title : String
  nominal_get : Option String
  crew_role : Option String
  step_number : ℤ
  action : String
  expected_response : Option String
  reference : Option String
  raw : List (String × Json)
deriving DecidableEq

/-- `records.AutopilotRecord` (the resolved `script_path` is carried as a
plain string). -/
structure AutopilotRecord where
  id : String
  description : Option String
  script_path : String
  entry_conditions : Option String
  termination_conditions : Option String
  tolerances : Json
  propulsion : Json
  raw : List (String × Json)
deriving DecidableEq

/-- `records.PadRecord`. -/
structure PadRecord where
  id : String
  purpose : Option String
  delivery_get : Option String
  valid_until : Option String
  parameters : Json
  source_ref : Option String
  raw : List (String × Json)
deriving DecidableEq

/-- `records.FailureRecord`. -/
structure FailureRecord where
  id : String
  classification : String
  trigger : Option String
  immediate_effect : Option String
  ongoing_penalty : Option String
  recovery_actions : Option String
  source_ref : Option String
  raw : List (String × Json)
deriving DecidableEq

/-- `records.AudioDuckingRule`. -/
structure AudioDuckingRule where
  target : String
  gain_db : ℚ
  raw : List (String × Json)
deriving DecidableEq

/-- `records.AudioBus`. -/
structure AudioBus where
  id : String
  name : Option String
  description : Option String
  max_concurrent : Option ℤ
  ducking : List AudioDuckingRule
  raw : List (String × Json)
deriving DecidableEq

/-- `records.AudioCategory`. -/
structure AudioCategory where
  id : String
  name : Option String
  bus : Option String
  default_priority : Option ℤ
  cooldown_seconds : Option ℚ
  description : Option String
  raw : List (String × Json)
deriving DecidableEq

/-- `records.AudioCue`. -/
structure AudioCue where
  id : String
  name : Option String
  category : Option String
  priority : Option ℤ
  length_seconds : Option ℚ
  loop : Option Bool
  cooldown_seconds : Option ℚ
  loudness_lufs : Option ℚ
  assets : List (String × String)
  subtitle : Option String
  tags : List String
  source : Option String
  notes : Option String
  raw : List (String × Json)
deriving DecidableEq

/-- `records.AudioCuePack`. -/
structure AudioCuePack where
  version : Option ℤ
  description : Option String
  buses : List AudioBus
  categories : List AudioCategory
  cues : List AudioCue
  raw : List (String × Json)
deriving DecidableEq

/-- `records.UiChecklistControlRequirement`. -/
structure UiChecklistControlRequirement where
  control_id : String
  target_state : Option String
  verification : Option String
  tolerance : Option ℚ
  raw : List (String × Json)
deriving DecidableEq

/-- `records.UiChecklistStep`. -/
structure UiChecklistStep where
  id : String
  order : ℤ
  callout : String
  panel_id : Option String
  controls : List UiChecklistControlRequirement
  dsky_macro : Option String
  manual_only : Option Bool
  prerequisites : List String
  effects : List (List (String × Json))
  notes : Option String
  raw : List (String × Json)
deriving DecidableEq

/-- `records.UiChecklist`. -/
structure UiChecklist where
  id : String
  title : String
  phase : Option String
  role : Option String
  nominal_get : Option String
  source : List (String × Json)
  steps : List UiChecklistStep
  raw : List (String × Json)
deriving DecidableEq

/-- `records.UiChecklistPack`. -/
structure UiChecklistPack where
  version : Option ℤ
  checklists : List UiChecklist
  raw : List (String × Json)
deriving DecidableEq

/-- `records.UiPanelControlState`. -/
structure UiPanelControlState where
  id : String
  label : Option String
  raw : List (String × Json)
deriving DecidableEq

/-- `records.UiPanelControl`. -/
structure UiPanelControl where
  id : String
  type : Option String
  label : Option String
  default_state : Option String
  states : List UiPanelControlState
  dependencies : List (List (String × Json))
  telemetry : List (String × Json)
  effects : List (List (String × Json))
  notes : Option String
  raw : List (String × Json)
deriving DecidableEq

/-- `records.UiPanelAlert`. -/
structure UiPanelAlert where
  id : String
  severity : Option String
  trigger : List (String × Json)
  message : Option String
  raw : List (String × Json)
deriving DecidableEq

/-- `records.UiPanel`. -/
structure UiPanel where
  id : String
  name : Option String
  craft : Option String
  layout : List (String × Json)
  controls : List UiPanelControl
  alerts : List UiPanelAlert
  raw : List (String × Json)
deriving DecidableEq

/-- `records.UiPanel.control_map`. -/
def UiPanel.control_map (panel : UiPanel) : List (String × UiPanelControl) :=
  dictOf (panel.controls.map fun control => (control.id, control))

/-- `records.UiPanelPack`. -/
structure UiPanelPack where
  version : Option ℤ
  panels : List UiPanel
  raw : List (String × Json)
deriving DecidableEq

/-- `records.UiWorkspaceTile`. -/
structure UiWorkspaceTile where
  id : String
  window : Option String
  x : Option ℚ
  y : Option ℚ
  width : Option ℚ
  height : Option ℚ
  constraints : List (String × Json)
  raw : List (String × Json)
deriving DecidableEq

/-- `records.UiWorkspace`. -/
structure UiWorkspace where
  id : String
  name : Option String
  description : Option String
  viewport : List (String × Json)
  tiles : List UiWorkspaceTile
  raw : List (String × Json)
deriving DecidableEq

/-- `records.UiWorkspacePack`. -/
structure UiWorkspacePack where
  version : Option ℤ
  presets : List UiWorkspace
  raw : List (String × Json)
deriving DecidableEq

/-- `records.DockingGate`. -/
structure DockingGate where
  id : String
  label : Option String
  range_meters : Option ℚ
  target_rate_mps : Option ℚ
  tolerance_plus : Option ℚ
  tolerance_minus : Option ℚ
  activation_progress : Option ℚ
  completion_progress : Option ℚ
  checklist_id : Option String
  deadline_get : Option String
  deadline_seconds : Option ℚ
  deadline_offset_seconds : Option ℚ
  notes : Option String
  sources : List String
  raw : List (String × Json)
deriving DecidableEq

/-- `records.DockingGateConfig`. -/
structure DockingGateConfig where
  version : Option ℤ
  event_id : Option String
  start_range_meters : Option ℚ
  end_range_meters : Option ℚ
  notes : Option String
  gates : List DockingGate
  raw : List (String × Json)
deriving DecidableEq

/-- `records.MissionData`.  `audio_cues` is carried as an option so that the
`if audio_pack:` guard in the validator is meaningful (a pack instance is
always truthy in Python, `None` is not). -/
structure MissionData where
  events : List EventRecord
  checklists : List ChecklistEntry
  autopilots : List AutopilotRecord
  pads : List PadRecord
  failures : List FailureRecord
  consumables : Json
  communications : Json
  thrusters : Json
  audio_cues : Option AudioCuePack
  ui_checklists : Option UiChecklistPack
  ui_panels : Option UiPanelPack
  ui_workspaces : Option UiWorkspacePack
  docking_gates : Option DockingGateConfig
deriving DecidableEq

/-- `MissionData.event_map`. -/
def MissionData.event_map (md : MissionData) : List (String × EventRecord) :=
  dictOf (md.events.map fun event => (event.id, event))

/-- `MissionData.checklist_index`. -/
def MissionData.checklist_index (md : MissionData) :
    List (String × List ChecklistEntry) :=
  md.checklists.foldl (fun index entry => groupAdd index entry.checklist_id entry) []

/-- `MissionData.autopilot_map`. -/
def MissionData.autopilot_map (md : MissionData) :
    List (String × AutopilotRecord) :=
  dictOf (md.autopilots.map fun auto => (auto.id, auto))

/-! ### Ground Elapsed Time helpers (`time.py`) -/

/-- Split a character list on a separator (the list of fields between
separators, like `str.split`). -/
def splitOnChar (sep : Char) : List Char → List (List Char)
  | [] => [[]]
  | c :: rest =>
      let r := splitOnChar sep rest
      if c = sep then [] :: r
      else
        match r with
        | [] => [[c]]
        | g :: gs => (c :: g) :: gs

/-- Decimal value of a most-significant-first digit-character list. -/
def digitsVal (cs : List Char) : ℕ :=
  cs.foldl (fun a c => 10 * a + (c.toNat - 48)) 0

/-- All characters are ASCII digits. -/
def allDigits (cs : List Char) : Bool := cs.all Char.isDigit

/-- A field matching the `[0-5]?\d` part of `_GET_PATTERN`: one digit, or two
digits whose first is at most `'5'`. -/
def twoDigitOK (cs : List Char) : Bool :=
  match cs with
  | [d] => d.isDigit
  | [d1, d2] => d1.isDigit && d2.isDigit && d1 ≤ '5'
  | _ => false

/-- Matching an already-stripped string against
`^(\d+):([0-5]?\d):([0-5]?\d)(?:\.(\d{1,3}))?$` and computing
`hours*3600 + minutes*60 + seconds + fraction` as `parse_get` does;
`none` means no match (`ValueError` in the source). -/
def parseGetChars (cs : List Char) : Option ℚ :=
  match splitOnChar ':' cs with
  | [h, m, secPart] =>
      if h ≠ [] ∧ allDigits h ∧ twoDigitOK m then
        match splitOnChar '.' secPart with
        | [s] =>
            if twoDigitOK s then
              some ((digitsVal h : ℚ) * 3600 + (digitsVal m : ℚ) * 60 + (digitsVal s : ℚ))
            else none
        | [s, f] =>
            if twoDigitOK s ∧ allDigits f ∧ 1 ≤ f.length ∧ f.length ≤ 3 then
              some ((digitsVal h : ℚ) * 3600 + (digitsVal m : ℚ) * 60 + (digitsVal s : ℚ)
                + (digitsVal f : ℚ) / (10 ^ f.length : ℚ))
            else none
        | _ => none
      else none
  | _ => none

/-- `time.parse_get`: seconds represented by a value, `Except` carrying the
`ValueError`/`TypeError` message raised on invalid input.  `timedelta` inputs
do not occur in the embedded datasets; numeric values are rationals, hence
always finite; `bool` is an `int` subclass in Python. -/
def parse_get (value : Json) : Except String (Option ℚ) :=
  match value with
  | .null => .ok none
  | .bool b => .ok (some (if b then 1 else 0))
  | .num q => .ok (some q)
  | .str s =>
      let trimmed := pyStrip s
      if trimmed = "" then .ok none
      else
        match parseGetChars trimmed.data with
        | some q => .ok (some q)
        | none => .error ("Invalid GET string: " ++ pyRepr (.str s))
  | v => .error ("Unsupported GET type: " ++ pyTypeName v)

/-- Decimal digit characters of a natural number, most significant first
(the `f"{n:d}"` rendering of a non-negative Python int). -/
def natChars (n : ℕ) : List Char :=
  if _h : n < 10 then [Nat.digitChar n]
  else natChars (n / 10) ++ [Nat.digitChar (n % 10)]
termination_by n
decreasing_by
  exact Nat.div_lt_self (by omega) (by omega)

/-- Zero-pad a digit string on the left to width `w`
(the `f"{n:0{w}d}"` padding). -/
def padChars (w : ℕ) (cs : List Char) : List Char :=
  List.replicate (w - cs.length) '0' ++ cs

/-- Python `round()` on an exact rational: round half to even. -/
def bankersRound (q : ℚ) : ℤ :=
  let f := q - ⌊q⌋
  if f < 1 / 2 then ⌊q⌋
  else if 1 / 2 < f then ⌊q⌋ + 1
  else if 2 ∣ ⌊q⌋ then ⌊q⌋ else ⌊q⌋ + 1

/-- `time.format_get` at the default `precision=0` (the only precision the
validator and the round-trip claim exercise): the `precision <= 0` branch of
the source, with `int(total // 3600)`-style floor divisions made explicit. -/
def format_get (seconds : ℚ) (zero_pad_hours : ℕ) : String :=
  let sign := if seconds < 0 then "-" else ""
  let total := |seconds|
  let hours := (⌊total / 3600⌋).toNat
  let remaining := total - hours * 3600
  let minutes := (⌊remaining / 60⌋).toNat
  let remaining2 := remaining - minutes * 60
  let sec := (bankersRound remaining2).toNat
  let (minutes, sec) := if sec ≥ 60 then (minutes + 1, sec - 60) else (minutes, sec)
  let (hours, minutes) :=
    if minutes ≥ 60 then (hours + 1, minutes - 60) else (hours, minutes)
  sign ++ ⟨padChars zero_pad_hours (natChars hours)⟩ ++ ":" ++
    ⟨padChars 2 (natChars minutes)⟩ ++ ":" ++ ⟨padChars 2 (natChars sec)⟩

/-! ### Validation (`validation.py`) -/

def _ALLOWED_FAILURE_CLASSES : List String := ["Recoverable", "Hard", "Technical"]

def _UI_PHASES : List String :=
  ["Launch", "Translunar", "LunarOrbit", "Surface", "Transearth", "Entry"]

def _UI_ROLES : List String := ["CDR", "CMP", "LMP", "Joint"]

def _UI_CONTROL_TYPES : List String :=
  ["toggle", "enum", "rotary", "momentary", "analog"]

/-- `validation.ValidationIssue`. -/
structure ValidationIssue where
  level : String
  category : String
  message : String
  context : List (String × Json)
deriving DecidableEq

mutual

/-- Fuel-indexed version of `_extract_failure_id`: `none` means the fuel ran
out before the recursion finished. -/
def extractFailureIdFuel : ℕ → Json → Option (Option String)
  | 0, _ => none
  | n + 1, .obj fields =>
      if objHasKey fields "failure_id" then
        match objGet fields "failure_id" with
        | .null => some none
        | v => some (some (pyStr v))
      else extractFailureIdValuesFuel n fields
  | _ + 1, _ => some none
termination_by n _ => (n, 0)

def extractFailureIdValuesFuel : ℕ → List (String × Json) → Option (Option String)
  | _, [] => some none
  | n, (_, v) :: rest =>
      match extractFailureIdFuel n v with
      | none => none
      | some (some s) =>
          if s = "" then extractFailureIdValuesFuel n rest else some (some s)
      | some none => extractFailureIdValuesFuel n rest
termination_by n l => (n, l.length + 1)

end

/-- Strict lexicographic comparison of character lists by code point: the
comparison Python applies to strings. -/
def strLtb : List Char → List Char → Bool
  | [], [] => false
  | [], _ :: _ => true
  | _ :: _, [] => false
  | a :: as, b :: bs => if a < b then true else if b < a then false else strLtb as bs

theorem strLtb_irrefl (a : List Char) : strLtb a a = false := by
  induction a with
  | nil => rfl
  | cons c rest ih => simp [strLtb, lt_irrefl, ih]

theorem strLtb_trans (a : List Char) :
    ∀ b c, strLtb a b = true → strLtb b c = true → strLtb a c = true := by
  induction a with
  | nil =>
    intro b c hab hbc
    cases c with
    | nil =>
      cases b with
      | nil => simp [strLtb] at hab
      | cons b2 bs => simp [strLtb] at hbc
    | cons c2 cs => simp [strLtb]
  | cons a2 as ih =>
    intro b c hab hbc
    cases b with
    | nil => simp [strLtb] at hab
    | cons b2 bs =>
      cases c with
      | nil => simp [strLtb] at hbc
      | cons c2 cs =>
        simp only [strLtb] at hab hbc ⊢
        by_cases h1 : a2 < b2 <;> by_cases h2 : b2 < c2
        · simp [lt_trans h1 h2]
        · rw [if_neg h2] at hbc
          by_cases h3 : c2 < b2
          · rw [if_pos h3] at hbc; exact absurd hbc (by simp)
          · have heq : b2 = c2 := le_antisymm (not_lt.1 h3) (not_lt.1 h2)
            subst heq
            simp [h1]
        · rw [if_neg h1] at hab
          by_cases h3 : b2 < a2
          · rw [if_pos h3] at hab; exact absurd hab (by simp)
          · rw [if_neg h3] at hab
            have heq : a2 = b2 := le_antisymm (not_lt.1 h3) (not_lt.1 h1)
            subst heq
            simp [h2]
        · rw [if_neg h1] at hab
          rw [if_neg h2] at hbc
          by_cases h3 : b2 < a2
          · rw [if_pos h3] at hab; exact absurd hab (by simp)
          by_cases h4 : c2 < b2
          · rw [if_pos h4] at hbc; exact absurd hbc (by simp)
          rw [if_neg h3] at hab
          rw [if_neg h4] at hbc
          have heq : a2 = b2 := le_antisymm (not_lt.1 h3) (not_lt.1 h1)
          have heq2 : b2 = c2 := le_antisymm (not_lt.1 h4) (not_lt.1 h2)
          subst heq
          subst heq2
          simp [lt_irrefl, ih bs cs hab hbc]

theorem strLtb_trichotomy (a : List Char) :
    ∀ b, strLtb a b = true ∨ a = b ∨ strLtb b a = true := by
  induction a with
  | nil =>
    intro b
    cases b with
    | nil => exact Or.inr (Or.inl rfl)
    | cons b2 bs => exact Or.inl rfl
  | cons a2 as ih =>
    intro b
    cases b with
    | nil => exact Or.inr (Or.inr rfl)
    | cons b2 bs =>
      rcases lt_trichotomy a2 b2 with h | rfl | h
      · refine Or.inl ?_
        simp [strLtb, h]
      · rcases ih bs with h2 | rfl | h2
        · refine Or.inl ?_
          simp [strLtb, lt_irrefl, h2]
        · exact Or.inr (Or.inl rfl)
        · refine Or.inr (Or.inr ?_)
          simp [strLtb, lt_irrefl, h2]
      · refine Or.inr (Or.inr ?_)
        simp [strLtb, h]

/-- Python `a < b` on strings. -/
def strLt (a b : String) : Prop := strLtb a.data b.data = true

/-- Python `a <= b` on strings. -/
def strLe (a b : String) : Prop := strLt a b ∨ a = b

theorem strLt_trans {a b c : String} (h1 : strLt a b) (h2 : strLt b c) :
    strLt a c := strLtb_trans a.data b.data c.data h1 h2

theorem String.data_inj {a b : String} (h : a.data = b.data) : a = b := by
  cases a
  cases b
  exact congrArg String.mk h

theorem strLt_trichotomy (a b : String) : strLt a b ∨ a = b ∨ strLt b a := by
  rcases strLtb_trichotomy a.data b.data with h | h | h
  · exact Or.inl h
  · exact Or.inr (Or.inl (String.data_inj h))
  · exact Or.inr (Or.inr h)

/-- Non-strict comparison between issues, as `list.sort` leaves them
ordered: the lexicographic order on the `(level, category, message)` triple
compared by `ValidationIssue.__lt__`. -/
def issueLe (a b : ValidationIssue) : Prop :=
  strLt a.level b.level ∨ (a.level = b.level ∧
    (strLt a.category b.category ∨ (a.category = b.category ∧
      strLe a.message b.message)))

instance : DecidableRel strLt := fun a b => by
  unfold strLt
  infer_instance

instance : DecidableRel strLe := fun a b => by
  unfold strLe
  infer_instance

instance : DecidableRel issueLe := fun a b => by
  unfold issueLe
  infer_instance

theorem issueLe_total (a b : ValidationIssue) : issueLe a b ∨ issueLe b a := by
  unfold issueLe
  rcases strLt_trichotomy a.level b.level with h | h | h
  · exact Or.inl (Or.inl h)
  · rcases strLt_trichotomy a.category b.category with h2 | h2 | h2
    · exact Or.inl (Or.inr ⟨h, Or.inl h2⟩)
    · rcases strLt_trichotomy a.message b.message with h3 | h3 | h3
      · exact Or.inl (Or.inr ⟨h, Or.inr ⟨h2, Or.inl h3⟩⟩)
      · exact Or.inl (Or.inr ⟨h, Or.inr ⟨h2, Or.inr h3⟩⟩)
      · exact Or.inr (Or.inr ⟨h.symm, Or.inr ⟨h2.symm, Or.inl h3⟩⟩)
    · exact Or.inr (Or.inr ⟨h.symm, Or.inl h2⟩)
  · exact Or.inr (Or.inl h)

theorem strLe_trans {a b c : String} (h1 : strLe a b) (h2 : strLe b c) :
    strLe a c := by
  rcases h1 with h1 | rfl
  · rcases h2 with h2 | rfl
    · exact Or.inl (strLt_trans h1 h2)
    · exact Or.inl h1
  · exact h2

theorem issueLe_trans (a b c : ValidationIssue) (h1 : issueLe a b)
    (h2 : issueLe b c) : issueLe a c := by
  unfold issueLe at h1 h2 ⊢
  rcases h1 with h1 | ⟨e1, h1⟩ <;> rcases h2 with h2 | ⟨e2, h2⟩
  · exact Or.inl (strLt_trans h1 h2)
  · exact Or.inl (e2 ▸ h1)
  · exact Or.inl (e1 ▸ h2)
  · refine Or.inr ⟨e1.trans e2, ?_⟩
    rcases h1 with h1 | ⟨f1, g1⟩ <;> rcases h2 with h2 | ⟨f2, g2⟩
    · exact Or.inl (strLt_trans h1 h2)
    · exact Or.inl (f2 ▸ h1)
    · exact Or.inl (f1 ▸ h2)
    · exact Or.inr ⟨f1.trans f2, strLe_trans g1 g2⟩

instance : IsTotal ValidationIssue issueLe := ⟨issueLe_total⟩

instance : IsTrans ValidationIssue issueLe :=
  ⟨fun a b c => issueLe_trans a b c⟩

/-- `Optional[str]` placed into an issue context. -/
def optStrJson : Option String → Json
  | none => .null
  | some s => .str s

/-- State of an autopilot script file as the validator observes it:
`Path.is_file()` false, reading/JSON-parsing raises, or a parsed object. -/
inductive FileState where
  | missing
  | unreadable (err : String)
  | script (payload : List (String × Json))

/-- The filesystem the autopilot checks consult, keyed by `script_path`. -/
def FileSystem := String → FileState

mutual

/-- `validation._extract_failure_id`. -/
def _extract_failure_id : Json → Option String
  | .obj fields =>
      if objHasKey fields "failure_id" then
        match objGet fields "failure_id" with
        | .null => none
        | v => some (pyStr v)
      else _extract_failure_id_values fields
  | _ => none

def _extract_failure_id_values : List (String × Json) → Option String
  | [] => none
  | (_, v) :: rest =>
      match _extract_failure_id v with
      | some s => if s = "" then _extract_failure_id_values rest else some s
      | none => _extract_failure_id_values rest

end

/-- Event window check (`validation.py:51-61`). -/
def eventWindowIssues (event : EventRecord) : List ValidationIssue :=
  match event.get_open_seconds, event.get_close_seconds with
  | some openSec, some closeSec =>
      if closeSec < openSec then
        [{ level := "error", category := "events",
           message := "Event window closes before it opens",
           context := [("event_id", .str event.id)] }]
      else []
  | _, _ => []

/-- Event prerequisite check (`validation.py:63-72`). -/
def eventPrereqIssues (event_map : List (String × EventRecord))
    (event : EventRecord) : List ValidationIssue :=
  event.prerequisites.flatMap fun prereq =>
    if dictHasKey event_map prereq then []
    else
      [{ level := "error", category := "events",
         message := "Missing prerequisite reference",
         context := [("event_id", .str event.id), ("missing", .str prereq)] }]

/-- Event autopilot reference check (`validation.py:74-82`). -/
def eventAutopilotIssues (autopilot_map : List (String × AutopilotRecord))
    (event : EventRecord) : List ValidationIssue :=
  match event.autopilot_id with
  | some aid =>
      if aid ≠ "" ∧ ¬ dictHasKey autopilot_map aid then
        [{ level := "error", category := "events",
           message := "Unknown autopilot reference",
           context := [("event_id", .str event.id), ("autopilot_id", .str aid)] }]
      else []
  | none => []

/-- Event checklist reference check (`validation.py:84-92`). -/
def eventChecklistIssues (checklist_index : List (String × List ChecklistEntry))
    (event : EventRecord) : List ValidationIssue :=
  match event.checklist_id with
  | some cid =>
      if cid ≠ "" ∧ ¬ dictHasKey checklist_index cid then
        [{ level := "error", category := "events",
           message := "Unknown checklist reference",
           context := [("event_id", .str event.id), ("checklist_id", .str cid)] }]
      else []
  | none => []

/-- Event failure reference check (`validation.py:94-103`). -/
def eventFailureIssues (failure_ids : List String) (event : EventRecord) :
    List ValidationIssue :=
  match _extract_failure_id event.failure_effects with
  | some fid =>
      if fid ≠ "" ∧ fid ∉ failure_ids then
        [{ level := "error", category := "events",
           message := "Unknown failure reference",
           context := [("event_id", .str event.id), ("failure_id", .str fid)] }]
      else []
  | none => []

/-- All checks the events loop performs for one event. -/
def eventIssues (event_map : List (String × EventRecord))
    (checklist_index : List (String × List ChecklistEntry))
    (autopilot_map : List (String × AutopilotRecord))
    (failure_ids : List String) (event : EventRecord) : List ValidationIssue :=
  eventWindowIssues event ++
  eventPrereqIssues event_map event ++
  eventAutopilotIssues autopilot_map event ++
  eventChecklistIssues checklist_index event ++
  eventFailureIssues failure_ids event

/-- `sorted(...)` on step numbers. -/
def sortInts (l : List ℤ) : List ℤ := List.insertionSort (· ≤ ·) l

/-- The `enumerate(numbers, start=1)` comparison loop of the checklists
section, stopping at the first mismatch (`validation.py:106-118`). -/
def seqScan (checklist_id : String) (index : ℕ) : List ℤ → List ValidationIssue
  | [] => []
  | n :: rest =>
      if n ≠ (index : ℤ) then
        [{ level := "warning", category := "checklists",
           message := "Checklist step numbers are not sequential",
           context := [("checklist_id", .str checklist_id),
                       ("expected", .num (index : ℚ)), ("found", .num (n : ℚ))] }]
      else seqScan checklist_id (index + 1) rest

/-- Checklist step-sequence check for one checklist-index entry. -/
def checklistGroupIssues (p : String × List ChecklistEntry) :
    List ValidationIssue :=
  seqScan p.1 1 (sortInts (p.2.map (·.step_number)))

/-- `entry.get(key) if isinstance(entry, dict) else None`. -/
def jsonGetField (v : Json) (key : String) : Json :=
  match v with
  | .obj fields => objGet fields key
  | _ => .null

/-- The autopilot `sequence` scan with its running `previous` time, the
`break` on an out-of-order command included (`validation.py:146-175`). -/
def autopilotSeqScan (autopilot_id : String) (previous : Option ℚ) :
    List Json → List ValidationIssue
  | [] => []
  | entry :: rest =>
      let time_value := jsonGetField entry "time"
      if time_value = .null then autopilotSeqScan autopilot_id previous rest
      else
          match pyFloat time_value with
          | none =>
              { level := "error", category := "autopilots",
                message := "Invalid command time value",
                context := [("autopilot_id", .str autopilot_id),
                            ("command", entry)] } ::
                autopilotSeqScan autopilot_id previous rest
          | some numeric =>
              match previous with
              | some prev =>
                  if numeric < prev then
                    [{ level := "warning", category := "autopilots",
                       message := "Autopilot commands are not sorted by time",
                       context := [("autopilot_id", .str autopilot_id)] }]
                  else autopilotSeqScan autopilot_id (some numeric) rest
              | none => autopilotSeqScan autopilot_id (some numeric) rest

/-- The autopilots loop body (`validation.py:121-175`). -/
def autopilotIssues (fs : FileSystem) (autopilot : AutopilotRecord) :
    List ValidationIssue :=
  match fs autopilot.script_path with
  | .missing =>
      [{ level := "error", category := "autopilots",
         message := "Autopilot script file is missing",
         context := [("autopilot_id", .str autopilot.id),
                     ("path", .str autopilot.script_path)] }]
  | .unreadable err =>
      [{ level := "error", category := "autopilots",
         message := "Failed to parse autopilot script JSON",
         context := [("autopilot_id", .str autopilot.id), ("error", .str err)] }]
  | .script payload =>
      match objGet payload "sequence" with
      | .arr sequence => autopilotSeqScan autopilot.id none sequence
      | _ => []

/-- One `(field_name, value)` iteration of the PADs loop
(`validation.py:178-195`). -/
def padFieldIssues (pad : PadRecord) (field_name : String)
    (value : Option String) : List ValidationIssue :=
  match value with
  | none => []
  | some v =>
      match parse_get (.str v) with
      | .ok _ => []
      | .error exc =>
          [{ level := "error", category := "pads",
             message := "Invalid GET string in " ++ field_name,
             context := [("pad_id", .str pad.id), ("value", .str v),
                         ("error", .str exc)] }]

/-- The PADs loop body. -/
def padIssues (pad : PadRecord) : List ValidationIssue :=
  padFieldIssues pad "GET_delivery" pad.delivery_get ++
  padFieldIssues pad "valid_until" pad.valid_until

/-- The failures loop body (`validation.py:198-207`). -/
def failureIssues (failure : FailureRecord) : List ValidationIssue :=
  if failure.classification ∉ _ALLOWED_FAILURE_CLASSES then
    [{ level := "warning", category := "failures",
       message := "Unknown failure classification",
       context := [("failure_id", .str failure.id),
                   ("classification", .str failure.classification)] }]
  else []

/-- `validation._normalize_communications_entries`. -/
def _normalize_communications_entries (raw : Json) : Option (List Json) :=
  match raw with
  | .null => some []
  | .arr entries => some (entries.filter Json.isObj)
  | .obj fields =>
      (match objGet fields "passes" with
       | .arr maybe => some (maybe.filter Json.isObj)
       | _ =>
         match objGet fields "schedule" with
         | .arr maybe => some (maybe.filter Json.isObj)
         | _ =>
           match objGet fields "entries" with
           | .arr maybe => some (maybe.filter Json.isObj)
           | _ => some [])
  | _ => none

/-- `validation._parse_get_field`: parsed seconds plus the issues it appends. -/
def _parse_get_field (value : Json) (field_name : String)
    (entry_id : Option String) : Option ℚ × List ValidationIssue :=
  match value with
  | .null =>
      (none,
        [{ level := "error", category := "communications",
           message := "Communications pass missing " ++ field_name,
           context := [("pass_id", optStrJson entry_id)] }])
  | v =>
      match parse_get v with
      | .error exc =>
          (none,
            [{ level := "error", category := "communications",
               message := "Invalid GET string for " ++ field_name,
               context := [("pass_id", optStrJson entry_id), ("value", v),
                           ("error", .str exc)] }])
      | .ok seconds => (seconds, [])

/-- One iteration of the communications loop: the issues it appends plus the
updated `seen_ids` and `previous_open` state (`validation.py:397-493`). -/
def commEntryIssues (seen_ids : List String) (previous_open : Option ℚ)
    (index : ℕ) (entry : Json) :
    List ValidationIssue × List String × Option ℚ :=
  match entry with
  | .obj fields =>
      let entry_id := clean_string (pyOr (objGet fields "id") (objGet fields "pass_id"))
      let idState : List ValidationIssue × List String :=
        match entry_id with
        | some eid =>
            if eid ≠ "" then
              if eid ∈ seen_ids then
                ([{ level := "error", category := "communications",
                    message := "Duplicate communications pass identifier",
                    context := [("pass_id", .str eid)] }], seen_ids)
              else ([], seen_ids ++ [eid])
            else
              ([{ level := "warning", category := "communications",
                  message := "Communications pass is missing an identifier",
                  context := [("index", .num (index : ℚ))] }], seen_ids)
        | none =>
            ([{ level := "warning", category := "communications",
                message := "Communications pass is missing an identifier",
                context := [("index", .num (index : ℚ))] }], seen_ids)
      let openRes := _parse_get_field (objGet fields "get_open") "get_open" entry_id
      let closeRes := _parse_get_field (objGet fields "get_close") "get_close" entry_id
      let open_seconds := openRes.1
      let close_seconds := closeRes.1
      let windowIssues : List ValidationIssue :=
        match open_seconds, close_seconds with
        | some o, some c =>
            if c < o then
              [{ level := "error", category := "communications",
                 message := "Communications window closes before it opens",
                 context := [("pass_id", optStrJson entry_id),
                             ("get_open", objGet fields "get_open"),
                             ("get_close", objGet fields "get_close")] }]
            else []
        | _, _ => []
      let orderIssues : List ValidationIssue :=
        match open_seconds, previous_open with
        | some o, some p =>
            if o < p then
              [{ level := "warning", category := "communications",
                 message := "Communications windows are not sorted by GET",
                 context := [("pass_id", optStrJson entry_id),
                             ("previous_open_seconds", .num p),
                             ("current_open_seconds", .num o)] }]
            else []
        | _, _ => []
      let previous2 :=
        match open_seconds with
        | some o => some o
        | none => previous_open
      let stationIssues : List ValidationIssue :=
        if optStrTruthy (clean_string (objGet fields "station")) then []
        else
          [{ level := "warning", category := "communications",
             message := "Communications pass missing station name",
             context := [("pass_id", optStrJson entry_id),
                         ("index", .num (index : ℚ))] }]
      (idState.1 ++ openRes.2 ++ closeRes.2 ++ windowIssues ++ orderIssues ++
        stationIssues, idState.2, previous2)
  | _ =>
      ([{ level := "error", category := "communications",
          message := "Communications entry must be an object",
          context := [("index", .num (index : ℚ)),
                      ("type", .str (pyTypeName entry))] }],
        seen_ids, previous_open)

/-- The communications per-entry loop. -/
def commScan (seen_ids : List String) (previous_open : Option ℚ) (index : ℕ) :
    List Json → List ValidationIssue
  | [] => []
  | entry :: rest =>
      let r := commEntryIssues seen_ids previous_open index entry
      r.1 ++ commScan r.2.1 r.2.2 (index + 1) rest

/-- `validation._validate_communications_schedule`. -/
def _validate_communications_schedule (raw : Json) : List ValidationIssue :=
  match _normalize_communications_entries raw with
  | none =>
      [{ level := "error", category := "communications",
         message := "Communications dataset must be a list or dict",
         context := [("type", .str (pyTypeName raw))] }]
  | some entries => commScan [] none 0 entries

/-- `validation._looks_numeric_field`. -/
def _looks_numeric_field (name : String) : Bool :=
  name.endsWith "_kg" || name.endsWith "_kw" || name.endsWith "_minutes" ||
  name.endsWith "_mps" || name.endsWith "_ah" || name.endsWith "_pct" ||
  name = "canisters"

/-- `validation._is_finite_number` (`bool` is an `int` subclass; rationals
are always finite). -/
def _is_finite_number (value : Json) : Bool :=
  match value with
  | .num _ => true
  | .bool _ => true
  | _ => false

/-- Numeric value of a Python number for the `value < 0` comparison. -/
def jsonNumVal : Json → ℚ
  | .num q => q
  | .bool b => if b then 1 else 0
  | _ => 0

/-- One numeric-field iteration of the consumables resource loop
(`validation.py:541-572`). -/
def consumableFieldIssues (category resource_id field_name : String)
    (value : Json) : List ValidationIssue :=
  if _looks_numeric_field field_name then
    match value with
    | .null => []
    | v =>
        if ¬ _is_finite_number v then
          [{ level := "error", category := "consumables",
             message := "Consumable numeric field must be finite",
             context := [("category", .str category),
                         ("resource_id", .str resource_id),
                         ("field", .str field_name), ("value", v)] }]
        else if jsonNumVal v < 0 then
          [{ level := "warning", category := "consumables",
             message := "Consumable numeric field is negative",
             context := [("category", .str category),
                         ("resource_id", .str resource_id),
                         ("field", .str field_name), ("value", v)] }]
        else []
  else []

/-- One resource iteration of the consumables category loop. -/
def consumableResourceIssues (category resource_id : String) (resource : Json) :
    List ValidationIssue :=
  match resource with
  | .obj rfields =>
      rfields.flatMap fun p => consumableFieldIssues category resource_id p.1 p.2
  | v =>
      [{ level := "error", category := "consumables",
         message := "Consumable entry must be an object",
         context := [("category", .str category),
                     ("resource_id", .str resource_id),
                     ("type", .str (pyTypeName v))] }]

/-- One category iteration of `_validate_consumables_pack`. -/
def consumableCategoryIssues (category : String) (payload : Json) :
    List ValidationIssue :=
  if category ∈ (["power", "propellant", "life_support"] : List String) then
    match payload with
    | .obj pfields =>
        pfields.flatMap fun p => consumableResourceIssues category p.1 p.2
    | v =>
        [{ level := "error", category := "consumables",
           message := "Consumables category must map to an object",
           context := [("category", .str category),
                       ("type", .str (pyTypeName v))] }]
  else if category = "communications" then
    match payload with
    | .obj pfields =>
        (match objGet pfields "dsn_shift_hours" with
         | .null => []
         | .arr values =>
             if values.all _is_finite_number then []
             else
               [{ level := "error", category := "consumables",
                  message := "DSN shift hours must be a list of numbers",
                  context := [("value", .arr values)] }]
         | v =>
             [{ level := "error", category := "consumables",
                message := "DSN shift hours must be a list of numbers",
                context := [("value", v)] }])
    | v =>
        [{ level := "error", category := "consumables",
           message := "Communications metadata must be an object",
           context := [("category", .str category),
                       ("type", .str (pyTypeName v))] }]
  else []

/-- `validation._validate_consumables_pack`. -/
def _validate_consumables_pack (raw : Json) : List ValidationIssue :=
  match raw with
  | .null => []
  | .obj fields => fields.flatMap fun p => consumableCategoryIssues p.1 p.2
  | v =>
      [{ level := "error", category := "consumables",
         message := "Consumables dataset must be an object",
         context := [("type", .str (pyTypeName v))] }]

/-- The per-panel control loop of `_validate_ui_packs`
(`validation.py:680-710`). -/
def panelControlScan (panel_id : String) (seen_controls : List String) :
    List UiPanelControl → List ValidationIssue
  | [] => []
  | control :: rest =>
      if control.id = "" then
        { level := "error", category := "ui_panels",
          message := "Panel control missing id",
          context := [("panel_id", .str panel_id),
                      ("control", .obj control.raw)] } ::
          panelControlScan panel_id seen_controls rest
      else
        (if control.id ∈ seen_controls then
          [{ level := "error", category := "ui_panels",
             message := "Duplicate control id within panel",
             context := [("panel_id", .str panel_id),
                         ("control_id", .str control.id)] }]
         else []) ++
        (match control.type with
         | some t =>
             if t ≠ "" ∧ t ∉ _UI_CONTROL_TYPES then
               [{ level := "warning", category := "ui_panels",
                  message := "Unknown panel control type",
                  context := [("panel_id", .str panel_id),
                              ("control_id", .str control.id),
                              ("type", .str t)] }]
             else []
         | none => []) ++
        panelControlScan panel_id (seen_controls ++ [control.id]) rest

/-- Set insertion for the Python `set()` accumulators (only membership is
observable). -/
def setAdd (l : List String) (x : String) : List String :=
  if x ∈ l then l else l ++ [x]

/-- The panels loop of `_validate_ui_packs`, threading `panel_map` and
`control_maps` (`validation.py:656-712`). -/
def panelScan (panel_map : List (String × UiPanel))
    (control_maps : List (String × List (String × UiPanelControl))) :
    List UiPanel →
      List ValidationIssue × List (String × UiPanel) ×
        List (String × List (String × UiPanelControl))
  | [] => ([], panel_map, control_maps)
  | panel :: rest =>
      if panel.id = "" then
        let r := panelScan panel_map control_maps rest
        ({ level := "error", category := "ui_panels",
           message := "Panel entry is missing an id",
           context := [("panel", .obj panel.raw)] } :: r.1, r.2)
      else if dictHasKey panel_map panel.id then
        let r := panelScan panel_map control_maps rest
        ({ level := "error", category := "ui_panels",
           message := "Duplicate panel id",
           context := [("panel_id", .str panel.id)] } :: r.1, r.2)
      else
        let controlIssues := panelControlScan panel.id [] panel.controls
        let r := panelScan (dictSet panel_map panel.id panel)
          (dictSet control_maps panel.id panel.control_map) rest
        (controlIssues ++ r.1, r.2)

/-- The control-requirement loop of a UI checklist step
(`validation.py:771-795`). -/
def checklistStepControlIssues (checklist_id step_id : String)
    (panel_id : Option String)
    (control_map : Option (List (String × UiPanelControl)))
    (controls : List UiChecklistControlRequirement) : List ValidationIssue :=
  controls.flatMap fun requirement =>
    if requirement.control_id = "" then
      [{ level := "warning", category := "ui_checklists",
         message := "Checklist control requirement missing controlId",
         context := [("checklist_id", .str checklist_id),
                     ("step_id", .str step_id)] }]
    else
      match control_map with
      | some cm =>
          if cm ≠ [] ∧ ¬ dictHasKey cm requirement.control_id then
            [{ level := "error", category := "ui_checklists",
               message := "Checklist references unknown panel control",
               context := [("checklist_id", .str checklist_id),
                           ("step_id", .str step_id),
                           ("panel_id", optStrJson panel_id),
                           ("control_id", .str requirement.control_id)] }]
          else []
      | none => []

/-- One UI checklist step (`validation.py:758-795`).  When `panel_id` is
falsy the control map is the empty dict; otherwise it is
`control_maps.get(panel_id)`, which may be `None`. -/
def checklistStepIssues (panel_map : List (String × UiPanel))
    (control_maps : List (String × List (String × UiPanelControl)))
    (checklist_id : String) (step : UiChecklistStep) : List ValidationIssue :=
  let panel_id := step.panel_id
  let control_map : Option (List (String × UiPanelControl)) :=
    match panel_id with
    | some pid => if pid ≠ "" then dictGet? control_maps pid else some []
    | none => some []
  (match panel_id with
   | some pid =>
       if pid ≠ "" ∧ ¬ dictHasKey panel_map pid then
         [{ level := "error", category := "ui_checklists",
            message := "Checklist step references unknown panel",
            context := [("checklist_id", .str checklist_id),
                        ("step_id", .str step.id), ("panel_id", .str pid)] }]
       else []
   | none => []) ++
  checklistStepControlIssues checklist_id step.id panel_id control_map
    step.controls

/-- The UI checklists loop (`validation.py:714-795`). -/
def uiChecklistScan (panel_map : List (String × UiPanel))
    (control_maps : List (String × List (String × UiPanelControl)))
    (seen_checklists : List String) : List UiChecklist → List ValidationIssue
  | [] => []
  | checklist :: rest =>
      if checklist.id = "" then
        { level := "error", category := "ui_checklists",
          message := "Checklist entry missing id",
          context := [("checklist", .obj checklist.raw)] } ::
          uiChecklistScan panel_map control_maps seen_checklists rest
      else
        (if checklist.id ∈ seen_checklists then
          [{ level := "error", category := "ui_checklists",
             message := "Duplicate checklist id",
             context := [("checklist_id", .str checklist.id)] }]
         else []) ++
        (match checklist.phase with
         | some phase =>
             if phase ≠ "" ∧ phase ∉ _UI_PHASES then
               [{ level := "warning", category := "ui_checklists",
                  message := "Checklist references unknown phase",
                  context := [("checklist_id", .str checklist.id),
                              ("phase", .str phase)] }]
             else []
         | none => []) ++
        (match checklist.role with
         | some role =>
             if role ≠ "" ∧ role ∉ _UI_ROLES then
               [{ level := "warning", category := "ui_checklists",
                  message := "Checklist references unknown crew role",
                  context := [("checklist_id", .str checklist.id),
                              ("role", .str role)] }]
             else []
         | none => []) ++
        (checklist.steps.flatMap
          (checklistStepIssues panel_map control_maps checklist.id)) ++
        uiChecklistScan panel_map control_maps
          (setAdd seen_checklists checklist.id) rest

/-- The tile loop of a workspace preset (`validation.py:823-844`). -/
def workspaceTileScan (workspace_id : String) (seen_tiles : List String) :
    List UiWorkspaceTile → List ValidationIssue
  | [] => []
  | tile :: rest =>
      if tile.id = "" then
        { level := "warning", category := "ui_workspaces",
          message := "Workspace tile missing id",
          context := [("workspace_id", .str workspace_id),
                      ("tile", .obj tile.raw)] } ::
          workspaceTileScan workspace_id seen_tiles rest
      else
        (if tile.id ∈ seen_tiles then
          [{ level := "error", category := "ui_workspaces",
             message := "Duplicate tile id within workspace",
             context := [("workspace_id", .str workspace_id),
                         ("tile_id", .str tile.id)] }]
         else []) ++
        workspaceTileScan workspace_id (setAdd seen_tiles tile.id) rest

/-- The workspace presets loop (`validation.py:797-844`). -/
def workspaceScan (seen_workspaces : List String) :
    List UiWorkspace → List ValidationIssue
  | [] => []
  | workspace :: rest =>
      if workspace.id = "" then
        { level := "error", category := "ui_workspaces",
          message := "Workspace preset missing id",
          context := [("workspace", .obj workspace.raw)] } ::
          workspaceScan seen_workspaces rest
      else if workspace.id ∈ seen_workspaces then
        { level := "error", category := "ui_workspaces",
          message := "Duplicate workspace id",
          context := [("workspace_id", .str workspace.id)] } ::
          workspaceScan seen_workspaces rest
      else
        workspaceTileScan workspace.id [] workspace.tiles ++
        workspaceScan (setAdd seen_workspaces workspace.id) rest

/-- `validation._validate_ui_packs`. -/
def _validate_ui_packs (md : MissionData) : List ValidationIssue :=
  let panelRes :=
    match md.ui_panels with
    | some panel_pack => panelScan [] [] panel_pack.panels
    | none => ([], [], [])
  let checklistIssues :=
    match md.ui_checklists with
    | some checklist_pack =>
        uiChecklistScan panelRes.2.1 panelRes.2.2 [] checklist_pack.checklists
    | none => []
  let workspaceIssues :=
    match md.ui_workspaces with
    | some workspace_pack => workspaceScan [] workspace_pack.presets
    | none => []
  panelRes.1 ++ checklistIssues ++ workspaceIssues

/-- The audio bus loop, threading the `bus_ids` set
(`validation.py:215-245`). -/
def audioBusScan (bus_ids : List String) :
    List AudioBus → List ValidationIssue × List String
  | [] => ([], bus_ids)
  | bus :: rest =>
      if bus.id = "" then
        let r := audioBusScan bus_ids rest
        ({ level := "error", category := "audio",
           message := "Audio bus is missing an id",
           context := [("bus", .obj bus.raw)] } :: r.1, r.2)
      else
        let dup :=
          if bus.id ∈ bus_ids then
            [{ level := "error", category := "audio",
               message := "Duplicate audio bus id",
               context := [("bus_id", .str bus.id)] }]
          else []
        let maxWarn :=
          match bus.max_concurrent with
          | some mc =>
              if mc ≤ 0 then
                [{ level := "warning", category := "audio",
                   message := "Audio bus maxConcurrent should be positive",
                   context := [("bus_id", .str bus.id),
                               ("value", .num (mc : ℚ))] }]
              else []
          | none => []
        let r := audioBusScan (setAdd bus_ids bus.id) rest
        (dup ++ maxWarn ++ r.1, r.2)

/-- The ducking loop over one bus (`validation.py:248-258`). -/
def audioDuckingIssues (known_bus_ids : List String) (bus : AudioBus) :
    List ValidationIssue :=
  bus.ducking.flatMap fun rule =>
    if rule.target ≠ "" ∧ rule.target ∉ known_bus_ids then
      [{ level := "error", category := "audio",
         message := "Audio bus ducking references unknown target",
         context := [("bus_id", .str bus.id), ("target", .str rule.target)] }]
    else []

/-- The audio category loop, threading the `category_ids` set
(`validation.py:260-290`). -/
def audioCategoryScan (known_bus_ids category_ids : List String) :
    List AudioCategory → List ValidationIssue × List String
  | [] => ([], category_ids)
  | category :: rest =>
      if category.id = "" then
        let r := audioCategoryScan known_bus_ids category_ids rest
        ({ level := "error", category := "audio",
           message := "Audio category is missing an id",
           context := [("category", .obj category.raw)] } :: r.1, r.2)
      else
        let dup :=
          if category.id ∈ category_ids then
            [{ level := "error", category := "audio",
               message := "Duplicate audio category id",
               context := [("category_id", .str category.id)] }]
          else []
        let busErr :=
          match category.bus with
          | some b =>
              if b ≠ "" ∧ b ∉ known_bus_ids then
                [{ level := "error", category := "audio",
                   message := "Audio category references unknown bus",
                   context := [("category_id", .str category.id),
                               ("bus", .str b)] }]
              else []
          | none => []
        let r := audioCategoryScan known_bus_ids (setAdd category_ids category.id) rest
        (dup ++ busErr ++ r.1, r.2)

/-- The audio cue loop (`validation.py:292-358`). -/
def audioCueScan (category_ids cue_ids : List String) :
    List AudioCue → List ValidationIssue
  | [] => []
  | cue :: rest =>
      if cue.id = "" then
        { level := "error", category := "audio",
          message := "Audio cue is missing an id",
          context := [("cue", .obj cue.raw)] } ::
          audioCueScan category_ids cue_ids rest
      else
        (if cue.id ∈ cue_ids then
          [{ level := "error", category := "audio",
             message := "Duplicate audio cue id",
             context := [("cue_id", .str cue.id)] }]
         else []) ++
        (match cue.category with
         | some c =>
             if c ≠ "" ∧ c ∉ category_ids then
               [{ level := "error", category := "audio",
                  message := "Audio cue references unknown category",
                  context := [("cue_id", .str cue.id), ("category", .str c)] }]
             else []
         | none => []) ++
        (match cue.length_seconds with
         | some l =>
             if l ≤ 0 then
               [{ level := "warning", category := "audio",
                  message := "Audio cue lengthSeconds should be positive",
                  context := [("cue_id", .str cue.id),
                              ("lengthSeconds", .num l)] }]
             else []
         | none => []) ++
        (match cue.cooldown_seconds with
         | some c =>
             if c < 0 then
               [{ level := "warning", category := "audio",
                  message := "Audio cue cooldownSeconds should not be negative",
                  context := [("cue_id", .str cue.id),
                              ("cooldownSeconds", .num c)] }]
             else []
         | none => []) ++
        (if cue.assets = [] then
          [{ level := "error", category := "audio",
             message := "Audio cue must define at least one asset path",
             context := [("cue_id", .str cue.id)] }]
         else []) ++
        (if optStrTruthy cue.source then []
         else
           [{ level := "warning", category := "audio",
              message := "Audio cue is missing a source citation",
              context := [("cue_id", .str cue.id)] }]) ++
        audioCueScan category_ids (setAdd cue_ids cue.id) rest

/-- The audio pack block of `validate_mission_data`
(`validation.py:213-358`). -/
def audioIssues (md : MissionData) : List ValidationIssue :=
  match md.audio_cues with
  | none => []
  | some audio_pack =>
      let busRes := audioBusScan [] audio_pack.buses
      let duckingIssues := audio_pack.buses.flatMap (audioDuckingIssues busRes.2)
      let catRes := audioCategoryScan busRes.2 [] audio_pack.categories
      let cueIssues := audioCueScan catRes.2 [] audio_pack.cues
      busRes.1 ++ duckingIssues ++ catRes.1 ++ cueIssues

/-- `list.sort()` on the issue list: a permutation sorted by `issueLe`. -/
def sortIssues (issues : List ValidationIssue) : List ValidationIssue :=
  List.insertionSort issueLe issues

instance {ε α : Type} [DecidableEq ε] [DecidableEq α] :
    DecidableEq (Except ε α) :=
  fun a b =>
    match a, b with
    | .ok x, .ok y => decidable_of_iff (x = y) (by simp)
    | .error x, .error y => decidable_of_iff (x = y) (by simp)
    | .ok _, .error _ => isFalse (by simp)
    | .error _, .ok _ => isFalse (by simp)

/-- The `issues` list `validate_mission_data` accumulates before its final
`issues.sort()`, in source order. -/
def rawIssues (fs : FileSystem) (md : MissionData) : List ValidationIssue :=
  (md.events.flatMap
      (eventIssues md.event_map md.checklist_index md.autopilot_map
        (md.failures.map (·.id)))) ++
    (md.checklist_index.flatMap checklistGroupIssues) ++
    (md.autopilots.flatMap (autopilotIssues fs)) ++
    (md.pads.flatMap padIssues) ++
    (md.failures.flatMap failureIssues) ++
    _validate_communications_schedule md.communications ++
    _validate_consumables_pack md.consumables ++
    _validate_ui_packs md ++
    audioIssues md

/-- `validation.validate_mission_data`, with the filesystem the autopilot
checks consult passed explicitly. -/
def validate_mission_data (fs : FileSystem) (md : MissionData) :
    List ValidationIssue :=
  sortIssues (rawIssues fs md)

/-! ### Basic facts about the sort and the dict helpers -/

/-! ### Concrete witness data and issue abbreviations -/

/-- The seconds value `_parse_get_field` returns: `parse_get` when it
succeeds, `None` when the field is absent or unparseable. -/
def parseGetValue (v : Json) : Option ℚ :=
  match parse_get v with
  | .ok s => s
  | .error _ => none

/-- The issue the close-before-open check builds for an object entry. -/
def commWindowIssue (fields : List (String × Json)) : ValidationIssue :=
  { level := "error", category := "communications",
    message := "Communications window closes before it opens",
    context := [("pass_id",
                  optStrJson (clean_string
                    (pyOr (objGet fields "id") (objGet fields "pass_id")))),
                ("get_open", objGet fields "get_open"),
                ("get_close", objGet fields "get_close")] }

/-- Baseline mission data used by the concrete witnesses. -/
def emptyMd : MissionData :=
  { events := [], checklists := [], autopilots := [], pads := [], failures := []
    consumables := .null, communications := .null, thrusters := .null
    audio_cues := none, ui_checklists := none, ui_panels := none
    ui_workspaces := none, docking_gates := none }

/-- Filesystem with no autopilot scripts, used by the concrete witnesses. -/
def noFs : FileSystem := fun _ => .missing

/-- Mission data whose two checklists both have non-sequential steps. -/
def mdC9 : MissionData :=
  { emptyMd with checklists :=
      [{ checklist_id := "C1", title := "a", nominal_get := none
         crew_role := none, step_number := 2, action := "x"
         expected_response := none, reference := none, raw := [] },
       { checklist_id := "C2", title := "b", nominal_get := none
         crew_role := none, step_number := 3, action := "y"
         expected_response := none, reference := none, raw := [] }] }

/-- The issue the prerequisite check builds for event id `eid` and missing
prerequisite `p`. -/
def missingPrereqIssue (eid p : String) : ValidationIssue :=
  { level := "error", category := "events",
    message := "Missing prerequisite reference",
    context := [("event_id", .str eid), ("missing", .str p)] }

/-- Event with a dangling prerequisite, for the C1 witness. -/
def evC1 : EventRecord :=
  { id := "E1", phase := "Launch", get_open := none, get_close := none
    get_open_seconds := none, get_close_seconds := none, craft := none
    system := none, prerequisites := ["MISSING"], autopilot_id := none
    checklist_id := none, success_effects := .null, failure_effects := .null
    notes := none, raw := [] }

def mdC1 : MissionData := { emptyMd with events := [evC1] }

/-- The issue the window check builds for event id `eid`. -/
def windowIssue (eid : String) : ValidationIssue :=
  { level := "error", category := "events",
    message := "Event window closes before it opens",
    context := [("event_id", .str eid)] }

/-- Event `"E"` with a well-ordered window. -/
def evC4a : EventRecord :=
  { id := "E", phase := "Launch", get_open := some "000:00:00"
    get_close := some "000:00:10", get_open_seconds := some 0
    get_close_seconds := some 10, craft := none, system := none
    prerequisites := [], autopilot_id := none, checklist_id := none
    success_effects := .null, failure_effects := .null, notes := none
    raw := [] }

/-- A second event that shares id `"E"` but has an inverted window. -/
def evC4b : EventRecord :=
  { id := "E", phase := "Launch", get_open := some "000:00:10"
    get_close := some "000:00:00", get_open_seconds := some 10
    get_close_seconds := some 0, craft := none, system := none
    prerequisites := [], autopilot_id := none, checklist_id := none
    success_effects := .null, failure_effects := .null, notes := none
    raw := [] }

def mdC4 : MissionData := { emptyMd with events := [evC4a, evC4b] }

/-- Autopilot record whose script path the filesystem may or may not
contain. -/
def apC2 : AutopilotRecord :=
  { id := "AP1", description := none, script_path := "scripts/ap1.json"
    entry_conditions := none, termination_conditions := none
    tolerances := .null, propulsion := .null, raw := [] }

def mdC2 : MissionData := { emptyMd with autopilots := [apC2] }

/-- Filesystem in which every path holds an empty JSON object script. -/
def emptyScriptFs : FileSystem := fun _ => .script []

/-- `[start, start+1, ..., start+n-1]` as integers. -/
def intRange (start n : ℕ) : List ℤ := (List.range' start n).map Int.ofNat

/-- The predicate picking out the step-sequence warning for checklist `c`. -/
def isSeqWarningFor (c : String) (i : ValidationIssue) : Bool :=
  i.level == "warning" && i.category == "checklists" &&
  i.message == "Checklist step numbers are not sequential" &&
  (match i.context with
   | ("checklist_id", Json.str c2) :: _ => c2 == c
   | _ => false)

/-- The issue the audio category check builds for category `catId` naming an
unknown bus `b`. -/
def unknownBusIssue (catId b : String) : ValidationIssue :=
  { level := "error", category := "audio",
    message := "Audio category references unknown bus",
    context := [("category_id", .str catId), ("bus", .str b)] }

/-- Audio category naming a bus that the (bus-less) pack does not define. -/
def catC6 : AudioCategory :=
  { id := "CAT", name := none, bus := some "B1", default_priority := none
    cooldown_seconds := none, description := none, raw := [] }

def packC6 : AudioCuePack :=
  { version := none, description := none, buses := [], categories := [catC6]
    cues := [], raw := [] }

def mdC6 : MissionData := { emptyMd with audio_cues := some packC6 }

/-- Communications pass whose window closes half an hour before it opens. -/
def commEntryC5 : List (String × Json) :=
  [("id", .str "P1"), ("get_open", .str "001:00:00"),
   ("get_close", .str "000:30:00"), ("station", .str "MAD")]

def mdC5 : MissionData :=
  { emptyMd with communications := .arr [.obj commEntryC5] }

theorem sortIssues_perm (l : List ValidationIssue) :
    List.Perm (sortIssues l) l :=
  List.perm_insertionSort issueLe l

theorem mem_validate_iff (fs : FileSystem) (md : MissionData)
    (i : ValidationIssue) :
    i ∈ validate_mission_data fs md ↔ i ∈ rawIssues fs md :=
  (sortIssues_perm (rawIssues fs md)).mem_iff

theorem countP_validate (fs : FileSystem) (md : MissionData)
    (p : ValidationIssue → Bool) :
    (validate_mission_data fs md).countP p = (rawIssues fs md).countP p :=
  (sortIssues_perm (rawIssues fs md)).countP_eq p

theorem dictGet?_dictSet {α : Type} (d : List (String × α)) (k k2 : String)
    (v : α) :
    dictGet? (dictSet d k v) k2 = if k = k2 then some v else dictGet? d k2 := by
  induction d with
  | nil => simp [dictSet, dictGet?]
  | cons p rest ih =>
    obtain ⟨k3, v3⟩ := p
    by_cases h3 : k3 = k
    · subst h3
      by_cases h2 : k3 = k2 <;> simp [dictSet, dictGet?, h2]
    · by_cases h2 : k3 = k2
      · subst h2
        have : ¬ k = k3 := fun h => h3 h.symm
        simp [dictSet, dictGet?, h3, this]
      · simp [dictSet, dictGet?, h3, h2, ih]

theorem dictHasKey_foldl_dictSet {α β : Type} (f : β → String × α)
    (l : List β) (d : List (String × α)) (k : String) :
    dictHasKey (l.foldl (fun acc b => dictSet acc (f b).1 (f b).2) d) k = true ↔
      (k ∈ (l.map (fun b => (f b).1)) ∨ dictHasKey d k = true) := by
  induction l generalizing d with
  | nil => simp
  | cons b rest ih =>
    simp only [List.foldl_cons, List.map_cons, List.mem_cons]
    rw [ih]
    have hset : dictHasKey (dictSet d (f b).1 (f b).2) k = true ↔
        ((f b).1 = k ∨ dictHasKey d k = true) := by
      unfold dictHasKey
      rw [dictGet?_dictSet]
      by_cases h : (f b).1 = k <;> simp [h]
    rw [hset]
    tauto

theorem dictHasKey_dictOf_map {α β : Type} (f : β → String × α) (l : List β)
    (k : String) :
    dictHasKey (dictOf (l.map f)) k = true ↔ k ∈ l.map fun b => (f b).1 := by
  have h := dictHasKey_foldl_dictSet f l [] k
  simp only [dictOf, List.foldl_map]
  constructor
  · intro hk
    rcases h.1 hk with h2 | h2
    · exact h2
    · simp [dictHasKey, dictGet?] at h2
  · intro hk
    exact h.2 (Or.inl hk)

/-- `event_map` key membership is event-id membership. -/
theorem hasKey_event_map (md : MissionData) (k : String) :
    dictHasKey md.event_map k = true ↔ k ∈ md.events.map (·.id) := by
  exact dictHasKey_dictOf_map (fun e => (e.id, e)) md.events k

/-- `autopilot_map` key membership is autopilot-id membership. -/
theorem hasKey_autopilot_map (md : MissionData) (k : String) :
    dictHasKey md.autopilot_map k = true ↔ k ∈ md.autopilots.map (·.id) := by
  exact dictHasKey_dictOf_map (fun a => (a.id, a)) md.autopilots k

theorem dictGet?_groupAdd {α : Type} (d : List (String × List α)) (k k2 : String)
    (v : α) :
    dictGet? (groupAdd d k v) k2 =
      if k = k2 then some ((dictGet? d k).getD [] ++ [v]) else dictGet? d k2 := by
  induction d with
  | nil => simp [groupAdd, dictGet?]
  | cons p rest ih =>
    obtain ⟨k3, vs⟩ := p
    by_cases h3 : k3 = k
    · subst h3
      by_cases h2 : k3 = k2 <;> simp [groupAdd, dictGet?, h2]
    · by_cases h2 : k3 = k2
      · subst h2
        have : ¬ k = k3 := fun h => h3 h.symm
        simp [groupAdd, dictGet?, h3, this]
      · simp [groupAdd, dictGet?, h3, h2, ih]

theorem dictGet?_foldl_groupAdd (l : List ChecklistEntry)
    (d : List (String × List ChecklistEntry)) (c : String) :
    dictGet? (l.foldl (fun index entry => groupAdd index entry.checklist_id entry) d) c =
      match dictGet? d c with
      | some g => some (g ++ l.filter (fun e => e.checklist_id = c))
      | none =>
          if l.filter (fun e => e.checklist_id = c) = [] then none
          else some (l.filter (fun e => e.checklist_id = c)) := by
  induction l generalizing d with
  | nil =>
    cases h : dictGet? d c <;> simp [h]
  | cons e rest ih =>
    rw [List.foldl_cons, ih, dictGet?_groupAdd, List.filter_cons]
    by_cases h : e.checklist_id = c
    · cases h2 : dictGet? d c <;> simp [h, h2, List.append_assoc]
    · cases h2 : dictGet? d c <;> simp [h, h2]

/-- The checklist index groups exactly the entries with the given id, in
order. -/
theorem dictGet?_checklist_index (md : MissionData) (c : String) :
    dictGet? md.checklist_index c =
      if md.checklists.filter (fun e => e.checklist_id = c) = [] then none
      else some (md.checklists.filter (fun e => e.checklist_id = c)) := by
  have h := dictGet?_foldl_groupAdd md.checklists [] c
  simpa [MissionData.checklist_index, dictGet?] using h

/-! ### Shape of the issues each section can emit -/

theorem mem_eventWindowIssues (event : EventRecord) (i : ValidationIssue) :
    i ∈ eventWindowIssues event ↔
      ∃ o c, event.get_open_seconds = some o ∧ event.get_close_seconds = some c ∧
        c < o ∧
        i = { level := "error", category := "events",
              message := "Event window closes before it opens",
              context := [("event_id", .str event.id)] } := by
  unfold eventWindowIssues
  cases ho : event.get_open_seconds with
  | none => simp [ho]
  | some o =>
    cases hc : event.get_close_seconds with
    | none => simp [ho, hc]
    | some c =>
      by_cases h : c < o
      · simp [ho, hc, h]
      · simp [ho, hc, h]

theorem mem_eventPrereqIssues (event_map : List (String × EventRecord))
    (event : EventRecord) (i : ValidationIssue) :
    i ∈ eventPrereqIssues event_map event ↔
      ∃ p ∈ event.prerequisites, ¬ dictHasKey event_map p = true ∧
        i = { level := "error", category := "events",
              message := "Missing prerequisite reference",
              context := [("event_id", .str event.id), ("missing", .str p)] } := by
  unfold eventPrereqIssues
  rw [List.mem_flatMap]
  constructor
  · rintro ⟨p, hp, hi⟩
    by_cases h : dictHasKey event_map p = true <;> simp [h] at hi
    exact ⟨p, hp, h, hi⟩
  · rintro ⟨p, hp, h, hi⟩
    exact ⟨p, hp, by simp [h, hi]⟩

theorem mem_eventAutopilotIssues (autopilot_map : List (String × AutopilotRecord))
    (event : EventRecord) (i : ValidationIssue) :
    i ∈ eventAutopilotIssues autopilot_map event ↔
      ∃ aid, event.autopilot_id = some aid ∧ aid ≠ "" ∧
        ¬ dictHasKey autopilot_map aid = true ∧
        i = { level := "error", category := "events",
              message := "Unknown autopilot reference",
              context := [("event_id", .str event.id),
                          ("autopilot_id", .str aid)] } := by
  unfold eventAutopilotIssues
  cases ha : event.autopilot_id with
  | none => simp [ha]
  | some aid =>
    by_cases h1 : aid = ""
    · simp [ha, h1]
    · by_cases h2 : dictHasKey autopilot_map aid = true
      · simp [ha, h1, h2]
      · simp [ha, h1, h2]

theorem mem_eventChecklistIssues
    (checklist_index : List (String × List ChecklistEntry))
    (event : EventRecord) (i : ValidationIssue) :
    i ∈ eventChecklistIssues checklist_index event ↔
      ∃ cid, event.checklist_id = some cid ∧ cid ≠ "" ∧
        ¬ dictHasKey checklist_index cid = true ∧
        i = { level := "error", category := "events",
              message := "Unknown checklist reference",
              context := [("event_id", .str event.id),
                          ("checklist_id", .str cid)] } := by
  unfold eventChecklistIssues
  cases hc : event.checklist_id with
  | none => simp [hc]
  | some cid =>
    by_cases h1 : cid = ""
    · simp [hc, h1]
    · by_cases h2 : dictHasKey checklist_index cid = true
      · simp [hc, h1, h2]
      · simp [hc, h1, h2]

theorem mem_eventFailureIssues (failure_ids : List String)
    (event : EventRecord) (i : ValidationIssue) :
    i ∈ eventFailureIssues failure_ids event ↔
      ∃ fid, _extract_failure_id event.failure_effects = some fid ∧ fid ≠ "" ∧
        fid ∉ failure_ids ∧
        i = { level := "error", category := "events",
              message := "Unknown failure reference",
              context := [("event_id", .str event.id),
                          ("failure_id", .str fid)] } := by
  unfold eventFailureIssues
  cases hf : _extract_failure_id event.failure_effects with
  | none => simp [hf]
  | some fid =>
    by_cases h1 : fid = ""
    · simp [hf, h1]
    · by_cases h2 : fid ∈ failure_ids
      · simp [hf, h1, h2]
      · simp [hf, h1, h2]

/-- Every issue of the events loop carries category `"events"` and one of its
five messages. -/
theorem mem_eventIssues_shape (event_map : List (String × EventRecord))
    (checklist_index : List (String × List ChecklistEntry))
    (autopilot_map : List (String × AutopilotRecord))
    (failure_ids : List String) (event : EventRecord) (i : ValidationIssue)
    (h : i ∈ eventIssues event_map checklist_index autopilot_map failure_ids event) :
    i.category = "events" ∧ i.level = "error" := by
  unfold eventIssues at h
  simp only [List.mem_append] at h
  rcases h with ((((h | h) | h) | h) | h)
  · obtain ⟨o, c, _, _, _, hi⟩ := (mem_eventWindowIssues event i).1 h
    subst hi; exact ⟨rfl, rfl⟩
  · obtain ⟨p, _, _, hi⟩ := (mem_eventPrereqIssues event_map event i).1 h
    subst hi; exact ⟨rfl, rfl⟩
  · obtain ⟨aid, _, _, _, hi⟩ := (mem_eventAutopilotIssues autopilot_map event i).1 h
    subst hi; exact ⟨rfl, rfl⟩
  · obtain ⟨cid, _, _, _, hi⟩ := (mem_eventChecklistIssues checklist_index event i).1 h
    subst hi; exact ⟨rfl, rfl⟩
  · obtain ⟨fid, _, _, _, hi⟩ := (mem_eventFailureIssues failure_ids event i).1 h
    subst hi; exact ⟨rfl, rfl⟩

/-- Shape of the checklist-sequence warnings. -/
theorem mem_seqScan (checklist_id : String) (index : ℕ) (l : List ℤ)
    (i : ValidationIssue) (h : i ∈ seqScan checklist_id index l) :
    i.level = "warning" ∧ i.category = "checklists" ∧
      i.message = "Checklist step numbers are not sequential" ∧
      ∃ a b, i.context = [("checklist_id", .str checklist_id),
                          ("expected", .num a), ("found", .num b)] := by
  induction l generalizing index with
  | nil => simp [seqScan] at h
  | cons n rest ih =>
    unfold seqScan at h
    by_cases hn : n ≠ (index : ℤ)
    · rw [if_pos hn] at h
      simp only [List.mem_singleton] at h
      subst h
      exact ⟨rfl, rfl, rfl, (index : ℚ), (n : ℚ), rfl⟩
    · rw [if_neg hn] at h
      exact ih (index + 1) h

theorem mem_checklistGroupIssues_shape (p : String × List ChecklistEntry)
    (i : ValidationIssue) (h : i ∈ checklistGroupIssues p) :
    i.level = "warning" ∧ i.category = "checklists" ∧
      i.message = "Checklist step numbers are not sequential" ∧
      ∃ a b, i.context = [("checklist_id", .str p.1),
                          ("expected", .num a), ("found", .num b)] :=
  mem_seqScan p.1 1 _ i h

theorem mem_autopilotSeqScan_shape (autopilot_id : String) (previous : Option ℚ)
    (l : List Json) (i : ValidationIssue)
    (h : i ∈ autopilotSeqScan autopilot_id previous l) :
    i.category = "autopilots" ∧
      (i.message = "Invalid command time value" ∨
        i.message = "Autopilot commands are not sorted by time") := by
  induction l generalizing previous with
  | nil => simp [autopilotSeqScan] at h
  | cons entry rest ih =>
    simp only [autopilotSeqScan] at h
    split at h
    · exact ih previous h
    · split at h
      · rcases List.mem_cons.1 h with rfl | h2
        · exact ⟨rfl, Or.inl rfl⟩
        · exact ih previous h2
      · split at h
        · split at h
          · simp only [List.mem_singleton] at h
            subst h
            exact ⟨rfl, Or.inr rfl⟩
          · exact ih _ h
        · exact ih _ h

theorem mem_autopilotIssues_shape (fs : FileSystem) (autopilot : AutopilotRecord)
    (i : ValidationIssue) (h : i ∈ autopilotIssues fs autopilot) :
    i.category = "autopilots" ∧
      (i.message = "Autopilot script file is missing" ∨
        i.message = "Failed to parse autopilot script JSON" ∨
        i.message = "Invalid command time value" ∨
        i.message = "Autopilot commands are not sorted by time") := by
  unfold autopilotIssues at h
  split at h
  · simp only [List.mem_singleton] at h; subst h; exact ⟨rfl, Or.inl rfl⟩
  · simp only [List.mem_singleton] at h; subst h
    exact ⟨rfl, Or.inr (Or.inl rfl)⟩
  · split at h
    · obtain ⟨hc, hm⟩ := mem_autopilotSeqScan_shape _ _ _ _ h
      exact ⟨hc, Or.inr (Or.inr hm)⟩
    · simp at h

theorem mem_padFieldIssues_shape (pad : PadRecord) (field_name : String)
    (value : Option String) (i : ValidationIssue)
    (h : i ∈ padFieldIssues pad field_name value) :
    i.category = "pads" ∧ i.message = "Invalid GET string in " ++ field_name := by
  unfold padFieldIssues at h
  split at h
  · simp at h
  · split at h
    · simp at h
    · simp only [List.mem_singleton] at h; subst h; exact ⟨rfl, rfl⟩

theorem mem_padIssues_shape (pad : PadRecord) (i : ValidationIssue)
    (h : i ∈ padIssues pad) :
    i.category = "pads" ∧
      (i.message = "Invalid GET string in GET_delivery" ∨
        i.message = "Invalid GET string in valid_until") := by
  unfold padIssues at h
  rcases List.mem_append.1 h with h2 | h2
  · obtain ⟨hc, hm⟩ := mem_padFieldIssues_shape _ _ _ _ h2
    exact ⟨hc, Or.inl hm⟩
  · obtain ⟨hc, hm⟩ := mem_padFieldIssues_shape _ _ _ _ h2
    exact ⟨hc, Or.inr hm⟩

theorem mem_failureIssues_shape (failure : FailureRecord) (i : ValidationIssue)
    (h : i ∈ failureIssues failure) :
    i.category = "failures" ∧
      i.message = "Unknown failure classification" := by
  unfold failureIssues at h
  split at h
  · simp only [List.mem_singleton] at h; subst h; exact ⟨rfl, rfl⟩
  · simp at h

theorem mem_consumableFieldIssues_shape (category resource_id field_name : String)
    (value : Json) (i : ValidationIssue)
    (h : i ∈ consumableFieldIssues category resource_id field_name value) :
    i.category = "consumables" ∧
      (i.message = "Consumable numeric field must be finite" ∨
        i.message = "Consumable numeric field is negative" ∨
        i.message = "Consumable entry must be an object" ∨
        i.message = "Consumables category must map to an object" ∨
        i.message = "DSN shift hours must be a list of numbers" ∨
        i.message = "Communications metadata must be an object" ∨
        i.message = "Consumables dataset must be an object") := by
  unfold consumableFieldIssues at h
  split at h
  · split at h
    · simp at h
    · split at h
      · simp only [List.mem_singleton] at h; subst h
        exact ⟨rfl, Or.inl rfl⟩
      · split at h
        · simp only [List.mem_singleton] at h; subst h
          exact ⟨rfl, Or.inr (Or.inl rfl)⟩
        · simp at h
  · simp at h

theorem mem_consumableResourceIssues_shape (category resource_id : String)
    (resource : Json) (i : ValidationIssue)
    (h : i ∈ consumableResourceIssues category resource_id resource) :
    i.category = "consumables" ∧
      (i.message = "Consumable numeric field must be finite" ∨
        i.message = "Consumable numeric field is negative" ∨
        i.message = "Consumable entry must be an object" ∨
        i.message = "Consumables category must map to an object" ∨
        i.message = "DSN shift hours must be a list of numbers" ∨
        i.message = "Communications metadata must be an object" ∨
        i.message = "Consumables dataset must be an object") := by
  unfold consumableResourceIssues at h
  split at h
  · rcases List.mem_flatMap.1 h with ⟨p, _, h2⟩
    exact mem_consumableFieldIssues_shape _ _ _ _ _ h2
  · simp only [List.mem_singleton] at h; subst h
    exact ⟨rfl, Or.inr (Or.inr (Or.inl rfl))⟩

theorem mem_consumableCategoryIssues_shape (category : String) (payload : Json)
    (i : ValidationIssue)
    (h : i ∈ consumableCategoryIssues category payload) :
    i.category = "consumables" ∧
      (i.message = "Consumable numeric field must be finite" ∨
        i.message = "Consumable numeric field is negative" ∨
        i.message = "Consumable entry must be an object" ∨
        i.message = "Consumables category must map to an object" ∨
        i.message = "DSN shift hours must be a list of numbers" ∨
        i.message = "Communications metadata must be an object" ∨
        i.message = "Consumables dataset must be an object") := by
  unfold consumableCategoryIssues at h
  split at h
  · split at h
    · rcases List.mem_flatMap.1 h with ⟨p, _, h2⟩
      exact mem_consumableResourceIssues_shape _ _ _ _ h2
    · simp only [List.mem_singleton] at h; subst h
      exact ⟨rfl, Or.inr (Or.inr (Or.inr (Or.inl rfl)))⟩
  · split at h
    · split at h
      · split at h
        · simp at h
        · split at h
          · simp at h
          · simp only [List.mem_singleton] at h; subst h
            exact ⟨rfl, Or.inr (Or.inr (Or.inr (Or.inr (Or.inl rfl))))⟩
        · simp only [List.mem_singleton] at h; subst h
          exact ⟨rfl, Or.inr (Or.inr (Or.inr (Or.inr (Or.inl rfl))))⟩
      · simp only [List.mem_singleton] at h; subst h
        exact ⟨rfl, Or.inr (Or.inr (Or.inr (Or.inr (Or.inr (Or.inl rfl)))))⟩
    · simp at h

theorem mem_consumables_shape (raw : Json) (i : ValidationIssue)
    (h : i ∈ _validate_consumables_pack raw) :
    i.category = "consumables" ∧
      (i.message = "Consumable numeric field must be finite" ∨
        i.message = "Consumable numeric field is negative" ∨
        i.message = "Consumable entry must be an object" ∨
        i.message = "Consumables category must map to an object" ∨
        i.message = "DSN shift hours must be a list of numbers" ∨
        i.message = "Communications metadata must be an object" ∨
        i.message = "Consumables dataset must be an object") := by
  unfold _validate_consumables_pack at h
  split at h
  · simp at h
  · rcases List.mem_flatMap.1 h with ⟨p, _, h2⟩
    exact mem_consumableCategoryIssues_shape _ _ _ h2
  · simp only [List.mem_singleton] at h; subst h
    exact ⟨rfl, Or.inr (Or.inr (Or.inr (Or.inr (Or.inr (Or.inr rfl)))))⟩

theorem mem_panelControlScan_shape (panel_id : String) (seen : List String)
    (l : List UiPanelControl) (i : ValidationIssue)
    (h : i ∈ panelControlScan panel_id seen l) : (i.message = "Panel entry is missing an id" ∨
        i.message = "Duplicate panel id" ∨
        i.message = "Panel control missing id" ∨
        i.message = "Duplicate control id within panel" ∨
        i.message = "Unknown panel control type" ∨
        i.message = "Checklist entry missing id" ∨
        i.message = "Duplicate checklist id" ∨
        i.message = "Checklist references unknown phase" ∨
        i.message = "Checklist references unknown crew role" ∨
        i.message = "Checklist step references unknown panel" ∨
        i.message = "Checklist control requirement missing controlId" ∨
        i.message = "Checklist references unknown panel control" ∨
        i.message = "Workspace preset missing id" ∨
        i.message = "Duplicate workspace id" ∨
        i.message = "Workspace tile missing id" ∨
        i.message = "Duplicate tile id within workspace") := by
  induction l generalizing seen with
  | nil => simp [panelControlScan] at h
  | cons control rest ih =>
    simp only [panelControlScan] at h
    split at h
    · rcases List.mem_cons.1 h with rfl | h2
      · exact Or.inr (Or.inr (Or.inl rfl))
      · exact ih seen h2
    · simp only [List.mem_append] at h
      rcases h with (h | h) | h
      · split at h
        · simp only [List.mem_singleton] at h; subst h
          exact Or.inr (Or.inr (Or.inr (Or.inl rfl)))
        · simp at h
      · split at h
        · split at h
          · simp only [List.mem_singleton] at h; subst h
            exact Or.inr (Or.inr (Or.inr (Or.inr (Or.inl rfl))))
          · simp at h
        · simp at h
      · exact ih _ h

theorem mem_panelScan_shape (panel_map : List (String × UiPanel))
    (control_maps : List (String × List (String × UiPanelControl)))
    (l : List UiPanel) (i : ValidationIssue)
    (h : i ∈ (panelScan panel_map control_maps l).1) : (i.message = "Panel entry is missing an id" ∨
        i.message = "Duplicate panel id" ∨
        i.message = "Panel control missing id" ∨
        i.message = "Duplicate control id within panel" ∨
        i.message = "Unknown panel control type" ∨
        i.message = "Checklist entry missing id" ∨
        i.message = "Duplicate checklist id" ∨
        i.message = "Checklist references unknown phase" ∨
        i.message = "Checklist references unknown crew role" ∨
        i.message = "Checklist step references unknown panel" ∨
        i.message = "Checklist control requirement missing controlId" ∨
        i.message = "Checklist references unknown panel control" ∨
        i.message = "Workspace preset missing id" ∨
        i.message = "Duplicate workspace id" ∨
        i.message = "Workspace tile missing id" ∨
        i.message = "Duplicate tile id within workspace") := by
  induction l generalizing panel_map control_maps with
  | nil => simp [panelScan] at h
  | cons panel rest ih =>
    simp only [panelScan] at h
    split at h
    · rcases List.mem_cons.1 h with rfl | h2
      · exact Or.inl rfl
      · exact ih _ _ h2
    · split at h
      · rcases List.mem_cons.1 h with rfl | h2
        · exact Or.inr (Or.inl rfl)
        · exact ih _ _ h2
      · rcases List.mem_append.1 h with h2 | h2
        · exact mem_panelControlScan_shape _ _ _ _ h2
        · exact ih _ _ h2

theorem mem_checklistStepControlIssues_shape (checklist_id step_id : String)
    (panel_id : Option String)
    (control_map : Option (List (String × UiPanelControl)))
    (controls : List UiChecklistControlRequirement) (i : ValidationIssue)
    (h : i ∈ checklistStepControlIssues checklist_id step_id panel_id
          control_map controls) : (i.message = "Panel entry is missing an id" ∨
        i.message = "Duplicate panel id" ∨
        i.message = "Panel control missing id" ∨
        i.message = "Duplicate control id within panel" ∨
        i.message = "Unknown panel control type" ∨
        i.message = "Checklist entry missing id" ∨
        i.message = "Duplicate checklist id" ∨
        i.message = "Checklist references unknown phase" ∨
        i.message = "Checklist references unknown crew role" ∨
        i.message = "Checklist step references unknown panel" ∨
        i.message = "Checklist control requirement missing controlId" ∨
        i.message = "Checklist references unknown panel control" ∨
        i.message = "Workspace preset missing id" ∨
        i.message = "Duplicate workspace id" ∨
        i.message = "Workspace tile missing id" ∨
        i.message = "Duplicate tile id within workspace") := by
  unfold checklistStepControlIssues at h
  rcases List.mem_flatMap.1 h with ⟨req, _, h2⟩
  split at h2
  · simp only [List.mem_singleton] at h2; subst h2
    exact Or.inr (Or.inr (Or.inr (Or.inr (Or.inr (Or.inr (Or.inr (Or.inr (Or.inr (Or.inr (Or.inl rfl))))))))))
  · split at h2
    · split at h2
      · simp only [List.mem_singleton] at h2; subst h2
        exact Or.inr (Or.inr (Or.inr (Or.inr (Or.inr (Or.inr (Or.inr (Or.inr (Or.inr (Or.inr (Or.inr (Or.inl rfl)))))))))))
      · simp at h2
    · simp at h2

theorem mem_checklistStepIssues_shape (panel_map : List (String × UiPanel))
    (control_maps : List (String × List (String × UiPanelControl)))
    (checklist_id : String) (step : UiChecklistStep) (i : ValidationIssue)
    (h : i ∈ checklistStepIssues panel_map control_maps checklist_id step) :
    (i.message = "Panel entry is missing an id" ∨
        i.message = "Duplicate panel id" ∨
        i.message = "Panel control missing id" ∨
        i.message = "Duplicate control id within panel" ∨
        i.message = "Unknown panel control type" ∨
        i.message = "Checklist entry missing id" ∨
        i.message = "Duplicate checklist id" ∨
        i.message = "Checklist references unknown phase" ∨
        i.message = "Checklist references unknown crew role" ∨
        i.message = "Checklist step references unknown panel" ∨
        i.message = "Checklist control requirement missing controlId" ∨
        i.message = "Checklist references unknown panel control" ∨
        i.message = "Workspace preset missing id" ∨
        i.message = "Duplicate workspace id" ∨
        i.message = "Workspace tile missing id" ∨
        i.message = "Duplicate tile id within workspace") := by
  unfold checklistStepIssues at h
  rcases List.mem_append.1 h with h2 | h2
  · split at h2
    · split at h2
      · simp only [List.mem_singleton] at h2; subst h2
        exact Or.inr (Or.inr (Or.inr (Or.inr (Or.inr (Or.inr (Or.inr (Or.inr (Or.inr (Or.inl rfl)))))))))
      · simp at h2
    · simp at h2
  · exact mem_checklistStepControlIssues_shape _ _ _ _ _ _ h2

theorem mem_uiChecklistScan_shape (panel_map : List (String × UiPanel))
    (control_maps : List (String × List (String × UiPanelControl)))
    (seen : List String) (l : List UiChecklist) (i : ValidationIssue)
    (h : i ∈ uiChecklistScan panel_map control_maps seen l) : (i.message = "Panel entry is missing an id" ∨
        i.message = "Duplicate panel id" ∨
        i.message = "Panel control missing id" ∨
        i.message = "Duplicate control id within panel" ∨
        i.message = "Unknown panel control type" ∨
        i.message = "Checklist entry missing id" ∨
        i.message = "Duplicate checklist id" ∨
        i.message = "Checklist references unknown phase" ∨
        i.message = "Checklist references unknown crew role" ∨
        i.message = "Checklist step references unknown panel" ∨
        i.message = "Checklist control requirement missing controlId" ∨
        i.message = "Checklist references unknown panel control" ∨
        i.message = "Workspace preset missing id" ∨
        i.message = "Duplicate workspace id" ∨
        i.message = "Workspace tile missing id" ∨
        i.message = "Duplicate tile id within workspace") := by
  induction l generalizing seen with
  | nil => simp [uiChecklistScan] at h
  | cons checklist rest ih =>
    simp only [uiChecklistScan] at h
    split at h
    · rcases List.mem_cons.1 h with rfl | h2
      · exact Or.inr (Or.inr (Or.inr (Or.inr (Or.inr (Or.inl rfl)))))
      · exact ih seen h2
    · simp only [List.mem_append] at h
      rcases h with ((((h | h) | h) | h) | h)
      · split at h
        · simp only [List.mem_singleton] at h; subst h
          exact Or.inr (Or.inr (Or.inr (Or.inr (Or.inr (Or.inr (Or.inl rfl))))))
        · simp at h
      · split at h
        · split at h
          · simp only [List.mem_singleton] at h; subst h
            exact Or.inr (Or.inr (Or.inr (Or.inr (Or.inr (Or.inr (Or.inr (Or.inl rfl)))))))
          · simp at h
        · simp at h
      · split at h
        · split at h
          · simp only [List.mem_singleton] at h; subst h
            exact Or.inr (Or.inr (Or.inr (Or.inr (Or.inr (Or.inr (Or.inr (Or.inr (Or.inl rfl))))))))
          · simp at h
        · simp at h
      · rcases List.mem_flatMap.1 h with ⟨step, _, h2⟩
        exact mem_checklistStepIssues_shape _ _ _ _ _ h2
      · exact ih _ h

theorem mem_workspaceTileScan_shape (workspace_id : String) (seen : List String)
    (l : List UiWorkspaceTile) (i : ValidationIssue)
    (h : i ∈ workspaceTileScan workspace_id seen l) : (i.message = "Panel entry is missing an id" ∨
        i.message = "Duplicate panel id" ∨
        i.message = "Panel control missing id" ∨
        i.message = "Duplicate control id within panel" ∨
        i.message = "Unknown panel control type" ∨
        i.message = "Checklist entry missing id" ∨
        i.message = "Duplicate checklist id" ∨
        i.message = "Checklist references unknown phase" ∨
        i.message = "Checklist references unknown crew role" ∨
        i.message = "Checklist step references unknown panel" ∨
        i.message = "Checklist control requirement missing controlId" ∨
        i.message = "Checklist references unknown panel control" ∨
        i.message = "Workspace preset missing id" ∨
        i.message = "Duplicate workspace id" ∨
        i.message = "Workspace tile missing id" ∨
        i.message = "Duplicate tile id within workspace") := by
  induction l generalizing seen with
  | nil => simp [workspaceTileScan] at h
  | cons tile rest ih =>
    simp only [workspaceTileScan] at h
    split at h
    · rcases List.mem_cons.1 h with rfl | h2
      · exact Or.inr (Or.inr (Or.inr (Or.inr (Or.inr (Or.inr (Or.inr (Or.inr (Or.inr (Or.inr (Or.inr (Or.inr (Or.inr (Or.inr (Or.inl rfl))))))))))))))
      · exact ih seen h2
    · rcases List.mem_append.1 h with h2 | h2
      · split at h2
        · simp only [List.mem_singleton] at h2; subst h2
          exact Or.inr (Or.inr (Or.inr (Or.inr (Or.inr (Or.inr (Or.inr (Or.inr (Or.inr (Or.inr (Or.inr (Or.inr (Or.inr (Or.inr (Or.inr (rfl)))))))))))))))
        · simp at h2
      · exact ih _ h2

theorem mem_workspaceScan_shape (seen : List String) (l : List UiWorkspace)
    (i : ValidationIssue) (h : i ∈ workspaceScan seen l) : (i.message = "Panel entry is missing an id" ∨
        i.message = "Duplicate panel id" ∨
        i.message = "Panel control missing id" ∨
        i.message = "Duplicate control id within panel" ∨
        i.message = "Unknown panel control type" ∨
        i.message = "Checklist entry missing id" ∨
        i.message = "Duplicate checklist id" ∨
        i.message = "Checklist references unknown phase" ∨
        i.message = "Checklist references unknown crew role" ∨
        i.message = "Checklist step references unknown panel" ∨
        i.message = "Checklist control requirement missing controlId" ∨
        i.message = "Checklist references unknown panel control" ∨
        i.message = "Workspace preset missing id" ∨
        i.message = "Duplicate workspace id" ∨
        i.message = "Workspace tile missing id" ∨
        i.message = "Duplicate tile id within workspace") := by
  induction l generalizing seen with
  | nil => simp [workspaceScan] at h
  | cons workspace rest ih =>
    simp only [workspaceScan] at h
    split at h
    · rcases List.mem_cons.1 h with rfl | h2
      · exact Or.inr (Or.inr (Or.inr (Or.inr (Or.inr (Or.inr (Or.inr (Or.inr (Or.inr (Or.inr (Or.inr (Or.inr (Or.inl rfl))))))))))))
      · exact ih seen h2
    · split at h
      · rcases List.mem_cons.1 h with rfl | h2
        · exact Or.inr (Or.inr (Or.inr (Or.inr (Or.inr (Or.inr (Or.inr (Or.inr (Or.inr (Or.inr (Or.inr (Or.inr (Or.inr (Or.inl rfl)))))))))))))
        · exact ih seen h2
      · rcases List.mem_append.1 h with h2 | h2
        · exact mem_workspaceTileScan_shape _ _ _ _ h2
        · exact ih _ h2

theorem mem_uiPacks_shape (md : MissionData) (i : ValidationIssue)
    (h : i ∈ _validate_ui_packs md) : (i.message = "Panel entry is missing an id" ∨
        i.message = "Duplicate panel id" ∨
        i.message = "Panel control missing id" ∨
        i.message = "Duplicate control id within panel" ∨
        i.message = "Unknown panel control type" ∨
        i.message = "Checklist entry missing id" ∨
        i.message = "Duplicate checklist id" ∨
        i.message = "Checklist references unknown phase" ∨
        i.message = "Checklist references unknown crew role" ∨
        i.message = "Checklist step references unknown panel" ∨
        i.message = "Checklist control requirement missing controlId" ∨
        i.message = "Checklist references unknown panel control" ∨
        i.message = "Workspace preset missing id" ∨
        i.message = "Duplicate workspace id" ∨
        i.message = "Workspace tile missing id" ∨
        i.message = "Duplicate tile id within workspace") := by
  unfold _validate_ui_packs at h
  simp only [List.mem_append] at h
  rcases h with (h | h) | h
  · cases hp : md.ui_panels with
    | none => rw [hp] at h; simp at h
    | some pack =>
        rw [hp] at h
        exact mem_panelScan_shape _ _ _ _ h
  · cases hc : md.ui_checklists with
    | none => rw [hc] at h; simp at h
    | some pack =>
        rw [hc] at h
        exact mem_uiChecklistScan_shape _ _ _ _ _ h
  · cases hw : md.ui_workspaces with
    | none => rw [hw] at h; simp at h
    | some pack =>
        rw [hw] at h
        exact mem_workspaceScan_shape _ _ _ h

theorem mem_setAdd (l : List String) (x y : String) :
    y ∈ setAdd l x ↔ y ∈ l ∨ y = x := by
  unfold setAdd
  by_cases h : x ∈ l
  · simp only [h, if_pos]
    exact ⟨Or.inl, fun h2 => h2.elim id fun he => he ▸ h⟩
  · simp [h]

/-- The `bus_ids` set after the audio bus loop: the starting set plus every
non-empty bus id. -/
theorem mem_audioBusScan_ids (s : List String) (l : List AudioBus) (x : String) :
    x ∈ (audioBusScan s l).2 ↔ x ∈ s ∨ ∃ bus ∈ l, bus.id = x ∧ bus.id ≠ "" := by
  induction l generalizing s with
  | nil => simp [audioBusScan]
  | cons bus rest ih =>
    simp only [audioBusScan]
    by_cases h : bus.id = ""
    · rw [if_pos h]
      rw [ih]
      simp only [List.mem_cons]
      constructor
      · rintro (hx | ⟨b, hb, hbx, hbne⟩)
        · exact Or.inl hx
        · exact Or.inr ⟨b, Or.inr hb, hbx, hbne⟩
      · rintro (hx | ⟨b, rfl | hb, hbx, hbne⟩)
        · exact Or.inl hx
        · exact absurd h hbne
        · exact Or.inr ⟨b, hb, hbx, hbne⟩
    · rw [if_neg h]
      rw [ih, mem_setAdd]
      simp only [List.mem_cons]
      constructor
      · rintro ((hx | rfl) | ⟨b, hb, hbx, hbne⟩)
        · exact Or.inl hx
        · exact Or.inr ⟨bus, Or.inl rfl, rfl, h⟩
        · exact Or.inr ⟨b, Or.inr hb, hbx, hbne⟩
      · rintro (hx | ⟨b, rfl | hb, hbx, hbne⟩)
        · exact Or.inl (Or.inl hx)
        · exact Or.inl (Or.inr hbx.symm)
        · exact Or.inr ⟨b, hb, hbx, hbne⟩

theorem mem_audioBusScan_shape (s : List String) (l : List AudioBus)
    (i : ValidationIssue) (h : i ∈ (audioBusScan s l).1) :
    i.category = "audio" ∧
      (i.message = "Audio bus is missing an id" ∨
        i.message = "Duplicate audio bus id" ∨
        i.message = "Audio bus maxConcurrent should be positive") := by
  induction l generalizing s with
  | nil => simp [audioBusScan] at h
  | cons bus rest ih =>
    simp only [audioBusScan] at h
    split at h
    · rcases List.mem_cons.1 h with rfl | h2
      · exact ⟨rfl, Or.inl rfl⟩
      · exact ih _ h2
    · simp only [List.mem_append] at h
      rcases h with (h | h) | h
      · split at h
        · simp only [List.mem_singleton] at h; subst h
          exact ⟨rfl, Or.inr (Or.inl rfl)⟩
        · simp at h
      · split at h
        · split at h
          · simp only [List.mem_singleton] at h; subst h
            exact ⟨rfl, Or.inr (Or.inr rfl)⟩
          · simp at h
        · simp at h
      · exact ih _ h

theorem mem_audioDuckingIssues_shape (known : List String) (bus : AudioBus)
    (i : ValidationIssue) (h : i ∈ audioDuckingIssues known bus) :
    i.category = "audio" ∧
      i.message = "Audio bus ducking references unknown target" := by
  unfold audioDuckingIssues at h
  rcases List.mem_flatMap.1 h with ⟨rule, _, h2⟩
  split at h2
  · simp only [List.mem_singleton] at h2; subst h2; exact ⟨rfl, rfl⟩
  · simp at h2

/-- Every issue of the audio category loop: its category, and the full shape
of the unknown-bus errors. -/
theorem mem_audioCategoryScan_shape (known cids : List String)
    (l : List AudioCategory) (i : ValidationIssue)
    (h : i ∈ (audioCategoryScan known cids l).1) :
    i.category = "audio" ∧
      (i.message = "Audio category is missing an id" ∨
        i.message = "Duplicate audio category id" ∨
        ∃ category ∈ l, category.id ≠ "" ∧ ∃ b, category.bus = some b ∧
          b ≠ "" ∧ b ∉ known ∧
          i = { level := "error", category := "audio",
                message := "Audio category references unknown bus",
                context := [("category_id", .str category.id),
                            ("bus", .str b)] }) := by
  induction l generalizing cids with
  | nil => simp [audioCategoryScan] at h
  | cons category rest ih =>
    simp only [audioCategoryScan] at h
    split at h
    · rcases List.mem_cons.1 h with rfl | h2
      · exact ⟨rfl, Or.inl rfl⟩
      · obtain ⟨hcat, hmsg⟩ := ih _ h2
        refine ⟨hcat, ?_⟩
        rcases hmsg with hm | hm | ⟨c, hc, rest2⟩
        · exact Or.inl hm
        · exact Or.inr (Or.inl hm)
        · exact Or.inr (Or.inr ⟨c, List.mem_cons_of_mem _ hc, rest2⟩)
    · simp only [List.mem_append] at h
      rcases h with (h | h) | h
      · split at h
        · simp only [List.mem_singleton] at h; subst h
          exact ⟨rfl, Or.inr (Or.inl rfl)⟩
        · simp at h
      · rename_i hne
        split at h
        · rename_i b hbus
          split at h
          · rename_i hcond
            simp only [List.mem_singleton] at h; subst h
            exact ⟨rfl, Or.inr (Or.inr ⟨category, List.mem_cons_self _ _, hne,
              b, hbus, hcond.1, hcond.2, rfl⟩)⟩
          · simp at h
        · simp at h
      · obtain ⟨hcat, hmsg⟩ := ih _ h
        refine ⟨hcat, ?_⟩
        rcases hmsg with hm | hm | ⟨c, hc, rest2⟩
        · exact Or.inl hm
        · exact Or.inr (Or.inl hm)
        · exact Or.inr (Or.inr ⟨c, List.mem_cons_of_mem _ hc, rest2⟩)

/-- If a category with a non-empty id names a non-empty bus outside the known
set, the unknown-bus error is emitted. -/
theorem audioCategoryScan_complete (known : List String)
    (l : List AudioCategory) (category : AudioCategory) (b : String)
    (hc : category ∈ l) (hid : category.id ≠ "") (hb : category.bus = some b)
    (hbne : b ≠ "") (hnk : b ∉ known) :
    ∀ cids,
      { level := "error", category := "audio",
        message := "Audio category references unknown bus",
        context := [("category_id", .str category.id), ("bus", .str b)] } ∈
        (audioCategoryScan known cids l).1 := by
  induction l with
  | nil => simp at hc
  | cons head rest ih =>
    intro cids
    rcases List.mem_cons.1 hc with rfl | hc2
    · simp only [audioCategoryScan]
      rw [if_neg hid]
      simp only [List.mem_append]
      refine Or.inl (Or.inr ?_)
      simp [hb, hbne, hnk]
    · simp only [audioCategoryScan]
      split
      · exact List.mem_cons_of_mem _ (ih hc2 _)
      · simp only [List.mem_append]
        exact Or.inr (ih hc2 _)

theorem mem_audioCueScan_shape (cids cueIds : List String) (l : List AudioCue)
    (i : ValidationIssue) (h : i ∈ audioCueScan cids cueIds l) :
    i.category = "audio" ∧
      (i.message = "Audio cue is missing an id" ∨
        i.message = "Duplicate audio cue id" ∨
        i.message = "Audio cue references unknown category" ∨
        i.message = "Audio cue lengthSeconds should be positive" ∨
        i.message = "Audio cue cooldownSeconds should not be negative" ∨
        i.message = "Audio cue must define at least one asset path" ∨
        i.message = "Audio cue is missing a source citation") := by
  induction l generalizing cueIds with
  | nil => simp [audioCueScan] at h
  | cons cue rest ih =>
    simp only [audioCueScan] at h
    split at h
    · rcases List.mem_cons.1 h with rfl | h2
      · exact ⟨rfl, Or.inl rfl⟩
      · exact ih _ h2
    · simp only [List.mem_append] at h
      rcases h with ((((((h | h) | h) | h) | h) | h) | h)
      · split at h
        · simp only [List.mem_singleton] at h; subst h
          exact ⟨rfl, Or.inr (Or.inl rfl)⟩
        · simp at h
      · split at h
        · split at h
          · simp only [List.mem_singleton] at h; subst h
            exact ⟨rfl, Or.inr (Or.inr (Or.inl rfl))⟩
          · simp at h
        · simp at h
      · split at h
        · split at h
          · simp only [List.mem_singleton] at h; subst h
            exact ⟨rfl, Or.inr (Or.inr (Or.inr (Or.inl rfl)))⟩
          · simp at h
        · simp at h
      · split at h
        · split at h
          · simp only [List.mem_singleton] at h; subst h
            exact ⟨rfl, Or.inr (Or.inr (Or.inr (Or.inr (Or.inl rfl))))⟩
          · simp at h
        · simp at h
      · split at h
        · simp only [List.mem_singleton] at h; subst h
          exact ⟨rfl, Or.inr (Or.inr (Or.inr (Or.inr (Or.inr (Or.inl rfl)))))⟩
        · simp at h
      · split at h
        · simp at h
        · simp only [List.mem_singleton] at h; subst h
          exact ⟨rfl, Or.inr (Or.inr (Or.inr (Or.inr (Or.inr (Or.inr rfl)))))⟩
      · exact ih _ h

theorem mem_audioIssues_cat (md : MissionData) (i : ValidationIssue)
    (h : i ∈ audioIssues md) : i.category = "audio" := by
  unfold audioIssues at h
  cases hp : md.audio_cues with
  | none => rw [hp] at h; simp at h
  | some pack =>
    rw [hp] at h
    simp only [List.mem_append] at h
    rcases h with ((h | h) | h) | h
    · exact (mem_audioBusScan_shape _ _ _ h).1
    · rcases List.mem_flatMap.1 h with ⟨bus, _, h2⟩
      exact (mem_audioDuckingIssues_shape _ _ _ h2).1
    · exact (mem_audioCategoryScan_shape _ _ _ _ h).1
    · exact (mem_audioCueScan_shape _ _ _ _ h).1

theorem parse_get_field_fst (v : Json) (f : String) (e : Option String) :
    (_parse_get_field v f e).1 = parseGetValue v := by
  unfold _parse_get_field parseGetValue
  split
  · simp [parse_get]
  · split <;> (rename_i heq; rw [heq])

theorem mem_parse_get_field_shape (v : Json) (f : String) (e : Option String)
    (i : ValidationIssue) (h : i ∈ (_parse_get_field v f e).2) :
    i.category = "communications" ∧ i.level = "error" ∧
      (i.message = "Communications pass missing " ++ f ∨
        i.message = "Invalid GET string for " ++ f) := by
  unfold _parse_get_field at h
  split at h
  · simp only [List.mem_singleton] at h; subst h
    exact ⟨rfl, rfl, Or.inl rfl⟩
  · split at h
    · simp only [List.mem_singleton] at h; subst h
      exact ⟨rfl, rfl, Or.inr rfl⟩
    · simp at h

/-- Shape of everything one communications entry can contribute. -/
theorem mem_commEntryIssues_shape (seen : List String) (prev : Option ℚ)
    (index : ℕ) (entry : Json) (i : ValidationIssue)
    (h : i ∈ (commEntryIssues seen prev index entry).1) :
    i.category = "communications" ∧
      (i.message = "Duplicate communications pass identifier" ∨
        i.message = "Communications pass is missing an identifier" ∨
        i.message = "Communications pass missing get_open" ∨
        i.message = "Invalid GET string for get_open" ∨
        i.message = "Communications pass missing get_close" ∨
        i.message = "Invalid GET string for get_close" ∨
        (∃ fields, entry = .obj fields ∧ ∃ o c,
          parseGetValue (objGet fields "get_open") = some o ∧
          parseGetValue (objGet fields "get_close") = some c ∧ c < o ∧
          i = commWindowIssue fields) ∨
        i.message = "Communications windows are not sorted by GET" ∨
        i.message = "Communications pass missing station name" ∨
        (entry.isObj = false ∧
          i.message = "Communications entry must be an object")) := by
  cases entry with
  | obj fields =>
    simp only [commEntryIssues] at h
    simp only [List.mem_append] at h
    rcases h with ((((h | h) | h) | h) | h) | h
    · split at h
      · split at h
        · split at h
          · simp only [List.mem_singleton] at h; subst h
            exact ⟨rfl, Or.inl rfl⟩
          · simp at h
        · simp only [List.mem_singleton] at h; subst h
          exact ⟨rfl, Or.inr (Or.inl rfl)⟩
      · simp only [List.mem_singleton] at h; subst h
        exact ⟨rfl, Or.inr (Or.inl rfl)⟩
    · obtain ⟨hcat, _, hm⟩ := mem_parse_get_field_shape _ _ _ _ h
      exact ⟨hcat, by tauto⟩
    · obtain ⟨hcat, _, hm⟩ := mem_parse_get_field_shape _ _ _ _ h
      exact ⟨hcat, by tauto⟩
    · split at h
      · rename_i o c ho hc
        split at h
        · rename_i hlt
          simp only [List.mem_singleton] at h; subst h
          refine ⟨rfl, Or.inr (Or.inr (Or.inr (Or.inr (Or.inr (Or.inr
            (Or.inl ⟨fields, rfl, o, c, ?_, ?_, hlt, rfl⟩))))))⟩
          · rw [← parse_get_field_fst _ "get_open" _, ho]
          · rw [← parse_get_field_fst _ "get_close" _, hc]
        · simp at h
      · simp at h
    · split at h
      · split at h
        · simp only [List.mem_singleton] at h; subst h
          refine ⟨rfl, by tauto⟩
        · simp at h
      · simp at h
    · split at h
      · simp at h
      · simp only [List.mem_singleton] at h; subst h
        refine ⟨rfl, by tauto⟩
  | null =>
    simp only [commEntryIssues, List.mem_singleton] at h; subst h
    exact ⟨rfl, by simp [Json.isObj]⟩
  | bool b =>
    simp only [commEntryIssues, List.mem_singleton] at h; subst h
    exact ⟨rfl, by simp [Json.isObj]⟩
  | num q =>
    simp only [commEntryIssues, List.mem_singleton] at h; subst h
    exact ⟨rfl, by simp [Json.isObj]⟩
  | str s =>
    simp only [commEntryIssues, List.mem_singleton] at h; subst h
    exact ⟨rfl, by simp [Json.isObj]⟩
  | arr items =>
    simp only [commEntryIssues, List.mem_singleton] at h; subst h
    exact ⟨rfl, by simp [Json.isObj]⟩

/-- Lift of the entry shape to the whole scan. -/
theorem mem_commScan_shape (i : ValidationIssue) :
    ∀ (entries : List Json) (seen : List String) (prev : Option ℚ) (index : ℕ),
      i ∈ commScan seen prev index entries →
      ∃ entry ∈ entries,
        i.category = "communications" ∧
          (i.message = "Duplicate communications pass identifier" ∨
            i.message = "Communications pass is missing an identifier" ∨
            i.message = "Communications pass missing get_open" ∨
            i.message = "Invalid GET string for get_open" ∨
            i.message = "Communications pass missing get_close" ∨
            i.message = "Invalid GET string for get_close" ∨
            (∃ fields, entry = .obj fields ∧ ∃ o c,
              parseGetValue (objGet fields "get_open") = some o ∧
              parseGetValue (objGet fields "get_close") = some c ∧ c < o ∧
              i = commWindowIssue fields) ∨
            i.message = "Communications windows are not sorted by GET" ∨
            i.message = "Communications pass missing station name" ∨
            (entry.isObj = false ∧
              i.message = "Communications entry must be an object")) := by
  intro entries
  induction entries with
  | nil => intro seen prev index h; simp [commScan] at h
  | cons entry rest ih =>
    intro seen prev index h
    simp only [commScan] at h
    rcases List.mem_append.1 h with h2 | h2
    · exact ⟨entry, List.mem_cons_self _ _,
        mem_commEntryIssues_shape seen prev index entry i h2⟩
    · obtain ⟨e2, he2, hshape⟩ := ih _ _ _ h2
      exact ⟨e2, List.mem_cons_of_mem _ he2, hshape⟩

theorem mem_comm_cat (raw : Json) (i : ValidationIssue)
    (h : i ∈ _validate_communications_schedule raw) :
    i.category = "communications" := by
  unfold _validate_communications_schedule at h
  split at h
  · simp only [List.mem_singleton] at h; subst h; rfl
  · exact (mem_commScan_shape i _ _ _ _ h).choose_spec.2.1

/-- If an object entry of the scanned list has parseable `get_open` and
`get_close` with the window inverted, the window error is emitted. -/
theorem commScan_window_complete (entries : List Json)
    (fields : List (String × Json)) (o c : ℚ)
    (he : Json.obj fields ∈ entries)
    (ho : parseGetValue (objGet fields "get_open") = some o)
    (hc : parseGetValue (objGet fields "get_close") = some c) (hlt : c < o) :
    ∀ (seen : List String) (prev : Option ℚ) (index : ℕ),
      commWindowIssue fields ∈ commScan seen prev index entries := by
  induction entries with
  | nil => simp at he
  | cons entry rest ih =>
    intro seen prev index
    rcases List.mem_cons.1 he with rfl | he2
    · simp only [commScan]
      refine List.mem_append.2 (Or.inl ?_)
      simp only [commEntryIssues, List.mem_append]
      refine Or.inl (Or.inl (Or.inr ?_))
      rw [parse_get_field_fst _ "get_open" _, parse_get_field_fst _ "get_close" _,
        ho, hc]
      simp [hlt, commWindowIssue]
    · simp only [commScan]
      exact List.mem_append.2 (Or.inr (ih he2 _ _ _))

/-- Everything `_normalize_communications_entries` keeps is an object. -/
theorem normalize_all_obj (raw : Json) (entries : List Json)
    (h : _normalize_communications_entries raw = some entries) :
    ∀ e ∈ entries, e.isObj = true := by
  unfold _normalize_communications_entries at h
  split at h
  · simp only [Option.some.injEq] at h; subst h; simp
  · simp only [Option.some.injEq] at h; subst h
    intro e he
    exact (List.mem_filter.1 he).2
  · split at h
    · simp only [Option.some.injEq] at h; subst h
      intro e he
      exact (List.mem_filter.1 he).2
    · split at h
      · simp only [Option.some.injEq] at h; subst h
        intro e he
        exact (List.mem_filter.1 he).2
      · split at h
        · simp only [Option.some.injEq] at h; subst h
          intro e he
          exact (List.mem_filter.1 he).2
        · simp only [Option.some.injEq] at h; subst h; simp
  · simp at h

/-- Where a raw issue can come from: one of the nine validator sections. -/
theorem mem_rawIssues_cases (fs : FileSystem) (md : MissionData)
    (i : ValidationIssue) (h : i ∈ rawIssues fs md) :
    (∃ e ∈ md.events,
      i ∈ eventIssues md.event_map md.checklist_index md.autopilot_map
        (md.failures.map (·.id)) e) ∨
    (∃ p ∈ md.checklist_index, i ∈ checklistGroupIssues p) ∨
    (∃ a ∈ md.autopilots, i ∈ autopilotIssues fs a) ∨
    (∃ pad ∈ md.pads, i ∈ padIssues pad) ∨
    (∃ fl ∈ md.failures, i ∈ failureIssues fl) ∨
    i ∈ _validate_communications_schedule md.communications ∨
    i ∈ _validate_consumables_pack md.consumables ∨
    i ∈ _validate_ui_packs md ∨
    i ∈ audioIssues md := by
  unfold rawIssues at h
  simp only [List.mem_append] at h
  rcases h with ((((((((h | h) | h) | h) | h) | h) | h) | h) | h)
  · exact Or.inl (List.mem_flatMap.1 h)
  · exact Or.inr (Or.inl (List.mem_flatMap.1 h))
  · exact Or.inr (Or.inr (Or.inl (List.mem_flatMap.1 h)))
  · exact Or.inr (Or.inr (Or.inr (Or.inl (List.mem_flatMap.1 h))))
  · exact Or.inr (Or.inr (Or.inr (Or.inr (Or.inl (List.mem_flatMap.1 h)))))
  · exact Or.inr (Or.inr (Or.inr (Or.inr (Or.inr (Or.inl h)))))
  · exact Or.inr (Or.inr (Or.inr (Or.inr (Or.inr (Or.inr (Or.inl h))))))
  · exact Or.inr (Or.inr (Or.inr (Or.inr (Or.inr (Or.inr (Or.inr (Or.inl h)))))))
  · exact Or.inr (Or.inr (Or.inr (Or.inr (Or.inr (Or.inr (Or.inr (Or.inr h)))))))

/-- The five messages the events loop can emit. -/
theorem mem_eventIssues_msgs (event_map : List (String × EventRecord))
    (checklist_index : List (String × List ChecklistEntry))
    (autopilot_map : List (String × AutopilotRecord))
    (failure_ids : List String) (event : EventRecord) (i : ValidationIssue)
    (h : i ∈ eventIssues event_map checklist_index autopilot_map failure_ids
      event) :
    i.message = "Event window closes before it opens" ∨
      i.message = "Missing prerequisite reference" ∨
      i.message = "Unknown autopilot reference" ∨
      i.message = "Unknown checklist reference" ∨
      i.message = "Unknown failure reference" := by
  unfold eventIssues at h
  simp only [List.mem_append] at h
  rcases h with ((((h | h) | h) | h) | h)
  · obtain ⟨_, _, _, _, _, hi⟩ := (mem_eventWindowIssues event i).1 h
    subst hi; exact Or.inl rfl
  · obtain ⟨_, _, _, hi⟩ := (mem_eventPrereqIssues event_map event i).1 h
    subst hi; exact Or.inr (Or.inl rfl)
  · obtain ⟨_, _, _, _, hi⟩ := (mem_eventAutopilotIssues autopilot_map event i).1 h
    subst hi; exact Or.inr (Or.inr (Or.inl rfl))
  · obtain ⟨_, _, _, _, hi⟩ := (mem_eventChecklistIssues checklist_index event i).1 h
    subst hi; exact Or.inr (Or.inr (Or.inr (Or.inl rfl)))
  · obtain ⟨_, _, _, _, hi⟩ := (mem_eventFailureIssues failure_ids event i).1 h
    subst hi; exact Or.inr (Or.inr (Or.inr (Or.inr rfl)))

/-- The messages the communications section can emit. -/
theorem mem_commSchedule_msgs (raw : Json) (i : ValidationIssue)
    (h : i ∈ _validate_communications_schedule raw) :
    i.message = "Communications dataset must be a list or dict" ∨
      i.message = "Duplicate communications pass identifier" ∨
      i.message = "Communications pass is missing an identifier" ∨
      i.message = "Communications pass missing get_open" ∨
      i.message = "Invalid GET string for get_open" ∨
      i.message = "Communications pass missing get_close" ∨
      i.message = "Invalid GET string for get_close" ∨
      i.message = "Communications window closes before it opens" ∨
      i.message = "Communications windows are not sorted by GET" ∨
      i.message = "Communications pass missing station name" ∨
      i.message = "Communications entry must be an object" := by
  unfold _validate_communications_schedule at h
  split at h
  · simp only [List.mem_singleton] at h; subst h
    exact Or.inl rfl
  · obtain ⟨entry, _, _, hm⟩ := mem_commScan_shape i _ _ _ _ h
    rcases hm with hm | hm | hm | hm | hm | hm |
      ⟨fields, _, o, c, _, _, _, hi2⟩ | hm | hm | ⟨_, hm⟩
    · exact Or.inr (Or.inl hm)
    · exact Or.inr (Or.inr (Or.inl hm))
    · exact Or.inr (Or.inr (Or.inr (Or.inl hm)))
    · exact Or.inr (Or.inr (Or.inr (Or.inr (Or.inl hm))))
    · exact Or.inr (Or.inr (Or.inr (Or.inr (Or.inr (Or.inl hm)))))
    · exact Or.inr (Or.inr (Or.inr (Or.inr (Or.inr (Or.inr (Or.inl hm))))))
    · subst hi2
      exact Or.inr (Or.inr (Or.inr (Or.inr (Or.inr (Or.inr (Or.inr
        (Or.inl rfl)))))))
    · exact Or.inr (Or.inr (Or.inr (Or.inr (Or.inr (Or.inr (Or.inr
        (Or.inr (Or.inl hm))))))))
    · exact Or.inr (Or.inr (Or.inr (Or.inr (Or.inr (Or.inr (Or.inr
        (Or.inr (Or.inr (Or.inl hm)))))))))
    · exact Or.inr (Or.inr (Or.inr (Or.inr (Or.inr (Or.inr (Or.inr
        (Or.inr (Or.inr (Or.inr hm)))))))))

/-- The messages the audio section can emit. -/
theorem mem_audioIssues_msgs (md : MissionData) (i : ValidationIssue)
    (h : i ∈ audioIssues md) :
    i.message = "Audio bus is missing an id" ∨
      i.message = "Duplicate audio bus id" ∨
      i.message = "Audio bus maxConcurrent should be positive" ∨
      i.message = "Audio bus ducking references unknown target" ∨
      i.message = "Audio category is missing an id" ∨
      i.message = "Duplicate audio category id" ∨
      i.message = "Audio category references unknown bus" ∨
      i.message = "Audio cue is missing an id" ∨
      i.message = "Duplicate audio cue id" ∨
      i.message = "Audio cue references unknown category" ∨
      i.message = "Audio cue lengthSeconds should be positive" ∨
      i.message = "Audio cue cooldownSeconds should not be negative" ∨
      i.message = "Audio cue must define at least one asset path" ∨
      i.message = "Audio cue is missing a source citation" := by
  unfold audioIssues at h
  cases hp : md.audio_cues with
  | none => rw [hp] at h; simp at h
  | some pack =>
    rw [hp] at h
    simp only [List.mem_append] at h
    rcases h with ((h | h) | h) | h
    · obtain ⟨_, hm⟩ := mem_audioBusScan_shape _ _ _ h
      rcases hm with hm | hm | hm
      · exact Or.inl hm
      · exact Or.inr (Or.inl hm)
      · exact Or.inr (Or.inr (Or.inl hm))
    · rcases List.mem_flatMap.1 h with ⟨bus, _, h2⟩
      obtain ⟨_, hm⟩ := mem_audioDuckingIssues_shape _ _ _ h2
      exact Or.inr (Or.inr (Or.inr (Or.inl hm)))
    · obtain ⟨_, hm⟩ := mem_audioCategoryScan_shape _ _ _ _ h
      rcases hm with hm | hm | ⟨_, _, _, _, _, _, _, hi2⟩
      · exact Or.inr (Or.inr (Or.inr (Or.inr (Or.inl hm))))
      · exact Or.inr (Or.inr (Or.inr (Or.inr (Or.inr (Or.inl hm)))))
      · subst hi2
        exact Or.inr (Or.inr (Or.inr (Or.inr (Or.inr (Or.inr (Or.inl rfl))))))
    · obtain ⟨_, hm⟩ := mem_audioCueScan_shape _ _ _ _ h
      rcases hm with hm | hm | hm | hm | hm | hm | hm
      · exact Or.inr (Or.inr (Or.inr (Or.inr (Or.inr (Or.inr (Or.inr
          (Or.inl hm)))))))
      · exact Or.inr (Or.inr (Or.inr (Or.inr (Or.inr (Or.inr (Or.inr
          (Or.inr (Or.inl hm))))))))
      · exact Or.inr (Or.inr (Or.inr (Or.inr (Or.inr (Or.inr (Or.inr
          (Or.inr (Or.inr (Or.inl hm)))))))))
      · exact Or.inr (Or.inr (Or.inr (Or.inr (Or.inr (Or.inr (Or.inr
          (Or.inr (Or.inr (Or.inr (Or.inl hm))))))))))
      · exact Or.inr (Or.inr (Or.inr (Or.inr (Or.inr (Or.inr (Or.inr
          (Or.inr (Or.inr (Or.inr (Or.inr (Or.inl hm)))))))))))
      · exact Or.inr (Or.inr (Or.inr (Or.inr (Or.inr (Or.inr (Or.inr
          (Or.inr (Or.inr (Or.inr (Or.inr (Or.inr (Or.inl hm))))))))))))
      · exact Or.inr (Or.inr (Or.inr (Or.inr (Or.inr (Or.inr (Or.inr
          (Or.inr (Or.inr (Or.inr (Or.inr (Or.inr (Or.inr hm))))))))))))

theorem rawIssues_of_events (fs : FileSystem) (md : MissionData)
    (i : ValidationIssue)
    (h : i ∈ md.events.flatMap
      (eventIssues md.event_map md.checklist_index md.autopilot_map
        (md.failures.map (·.id)))) : i ∈ rawIssues fs md := by
  unfold rawIssues
  simp only [List.mem_append]
  exact Or.inl (Or.inl (Or.inl (Or.inl (Or.inl (Or.inl (Or.inl (Or.inl h)))))))

theorem rawIssues_of_checklists (fs : FileSystem) (md : MissionData)
    (i : ValidationIssue)
    (h : i ∈ md.checklist_index.flatMap checklistGroupIssues) :
    i ∈ rawIssues fs md := by
  unfold rawIssues
  simp only [List.mem_append]
  exact Or.inl (Or.inl (Or.inl (Or.inl (Or.inl (Or.inl (Or.inl (Or.inr h)))))))

theorem rawIssues_of_comm (fs : FileSystem) (md : MissionData)
    (i : ValidationIssue)
    (h : i ∈ _validate_communications_schedule md.communications) :
    i ∈ rawIssues fs md := by
  unfold rawIssues
  simp only [List.mem_append]
  exact Or.inl (Or.inl (Or.inl (Or.inr h)))

theorem rawIssues_of_audio (fs : FileSystem) (md : MissionData)
    (i : ValidationIssue) (h : i ∈ audioIssues md) : i ∈ rawIssues fs md := by
  unfold rawIssues
  simp only [List.mem_append]
  exact Or.inr h

/-- C1: for every event and prerequisite identifier, the missing-prerequisite
error naming them is returned exactly when the identifier is not the id of
any event; and every issue with that message arises this way. -/
theorem missing_prereq_iff (fs : FileSystem) (md : MissionData)
    (e : EventRecord) (he : e ∈ md.events) (p : String)
    (hp : p ∈ e.prerequisites) :
    (missingPrereqIssue e.id p ∈ validate_mission_data fs md ↔
      p ∉ md.events.map (·.id)) ∧
    (∀ i ∈ validate_mission_data fs md,
      i.message = "Missing prerequisite reference" →
      i.level = "error" ∧ i.category = "events" ∧
        ∃ e2 ∈ md.events, ∃ p2 ∈ e2.prerequisites,
          p2 ∉ md.events.map (·.id) ∧ i = missingPrereqIssue e2.id p2) := by
  have main : ∀ i ∈ validate_mission_data fs md,
      i.message = "Missing prerequisite reference" →
      ∃ e2 ∈ md.events, ∃ p2 ∈ e2.prerequisites,
        p2 ∉ md.events.map (·.id) ∧ i = missingPrereqIssue e2.id p2 := by
    intro i hi hmsg
    have hraw := (mem_validate_iff fs md i).1 hi
    rcases mem_rawIssues_cases fs md i hraw with
      ⟨e2, he2, hev⟩ | ⟨pp, _, hcl⟩ | ⟨a, _, hap⟩ | ⟨pad, _, hpd⟩ |
      ⟨fl, _, hfl⟩ | hcm | hcs | hui | hau
    · unfold eventIssues at hev
      simp only [List.mem_append] at hev
      rcases hev with ((((hev | hev) | hev) | hev) | hev)
      · obtain ⟨o, cc, _, _, _, hi2⟩ := (mem_eventWindowIssues e2 i).1 hev
        rw [hi2] at hmsg
        simp at hmsg
      · obtain ⟨p2, hp2, hkey, hi2⟩ := (mem_eventPrereqIssues _ e2 i).1 hev
        refine ⟨e2, he2, p2, hp2, ?_, hi2⟩
        rw [← hasKey_event_map]
        simpa using hkey
      · obtain ⟨aid, _, _, _, hi2⟩ := (mem_eventAutopilotIssues _ e2 i).1 hev
        rw [hi2] at hmsg
        simp at hmsg
      · obtain ⟨cid, _, _, _, hi2⟩ := (mem_eventChecklistIssues _ e2 i).1 hev
        rw [hi2] at hmsg
        simp at hmsg
      · obtain ⟨fid, _, _, _, hi2⟩ := (mem_eventFailureIssues _ e2 i).1 hev
        rw [hi2] at hmsg
        simp at hmsg
    · obtain ⟨_, _, hm, _⟩ := mem_checklistGroupIssues_shape _ i hcl
      rw [hmsg] at hm
      simp at hm
    · obtain ⟨_, hm⟩ := mem_autopilotIssues_shape _ _ i hap
      rw [hmsg] at hm
      simp at hm
    · obtain ⟨_, hm⟩ := mem_padIssues_shape _ i hpd
      rw [hmsg] at hm
      simp at hm
    · obtain ⟨_, hm⟩ := mem_failureIssues_shape _ i hfl
      rw [hmsg] at hm
      simp at hm
    · unfold _validate_communications_schedule at hcm
      split at hcm
      · simp only [List.mem_singleton] at hcm
        rw [hcm] at hmsg
        simp at hmsg
      · obtain ⟨entry, _, _, hm⟩ := mem_commScan_shape i _ _ _ _ hcm
        rcases hm with hm | hm | hm | hm | hm | hm |
          ⟨fields, _, o, cc, _, _, _, hi2⟩ | hm | hm | ⟨_, hm⟩ <;>
          first
          | (rw [hmsg] at hm; simp at hm)
          | (rw [hi2] at hmsg; simp [commWindowIssue] at hmsg)
    · obtain ⟨_, hm⟩ := mem_consumables_shape _ i hcs
      rw [hmsg] at hm
      simp at hm
    · have hm := mem_uiPacks_shape md i hui
      rw [hmsg] at hm
      simp at hm
    · unfold audioIssues at hau
      cases hpz : md.audio_cues with
      | none => rw [hpz] at hau; simp at hau
      | some pack =>
        rw [hpz] at hau
        simp only [List.mem_append] at hau
        rcases hau with ((hau | hau) | hau) | hau
        · obtain ⟨_, hm⟩ := mem_audioBusScan_shape _ _ _ hau
          rw [hmsg] at hm
          simp at hm
        · rcases List.mem_flatMap.1 hau with ⟨bus, _, h2⟩
          obtain ⟨_, hm⟩ := mem_audioDuckingIssues_shape _ _ _ h2
          rw [hmsg] at hm
          simp at hm
        · obtain ⟨_, hm⟩ := mem_audioCategoryScan_shape _ _ _ _ hau
          rcases hm with hm | hm | ⟨cat2, _, _, b2, _, _, _, hi2⟩
          · rw [hmsg] at hm
            simp at hm
          · rw [hmsg] at hm
            simp at hm
          · rw [hi2] at hmsg
            simp at hmsg
        · obtain ⟨_, hm⟩ := mem_audioCueScan_shape _ _ _ _ hau
          rw [hmsg] at hm
          simp at hm
  constructor
  · constructor
    · intro hin
      obtain ⟨e2, _, p2, _, hnot, hi2⟩ := main _ hin rfl
      have hpeq : p = p2 := by
        have hctx := congrArg (fun j => j.context) hi2
        simp only [missingPrereqIssue, List.cons.injEq, Prod.mk.injEq,
          Json.str.injEq, true_and, and_true] at hctx
        exact hctx.2
      exact hpeq ▸ hnot
    · intro hnot
      have hkey : ¬ dictHasKey md.event_map p = true := by
        rw [hasKey_event_map]
        simpa using hnot
      have h1 : missingPrereqIssue e.id p ∈ eventPrereqIssues md.event_map e :=
        (mem_eventPrereqIssues _ e _).2 ⟨p, hp, hkey, rfl⟩
      have h2 : missingPrereqIssue e.id p ∈
          eventIssues md.event_map md.checklist_index md.autopilot_map
            (md.failures.map (·.id)) e := by
        unfold eventIssues
        simp only [List.mem_append]
        exact Or.inl (Or.inl (Or.inl (Or.inr h1)))
      exact (mem_validate_iff fs md _).2 (rawIssues_of_events fs md _
        (List.mem_flatMap.2 ⟨e, he, h2⟩))
  · intro i hi hmsg
    obtain ⟨e2, he2, p2, hp2, hnot, hi2⟩ := main i hi hmsg
    subst hi2
    exact ⟨rfl, rfl, e2, he2, p2, hp2, hnot, rfl⟩

/-- C1 witness: the dangling prerequisite of `evC1` is reported. -/
theorem missing_prereq_iff_witness :
    missingPrereqIssue "E1" "MISSING" ∈ validate_mission_data noFs mdC1 :=
  (missing_prereq_iff noFs mdC1 evC1 (by decide) "MISSING" (by decide)).1.2
    (by decide)

/-- C4 counterexample: for the well-ordered event `evC4a` the claimed
equivalence fails, because its duplicate-id sibling `evC4b` produces the
issue naming `"E"` even though `evC4a`'s own window is not inverted. -/
theorem event_window_claim_counterexample :
    ¬ ((windowIssue evC4a.id ∈ validate_mission_data noFs mdC4) ↔
      ((10 : ℚ) < (0 : ℚ))) := by decide

/-- C4 (amended): the window error naming an event id is returned exactly
when some event with that id has both bounds present and the close bound
strictly below the open bound; and every issue with that message arises this
way (in particular events with either bound absent never produce one). -/
theorem event_window_iff (fs : FileSystem) (md : MissionData)
    (e : EventRecord) (_he : e ∈ md.events) :
    (windowIssue e.id ∈ validate_mission_data fs md ↔
      ∃ e2 ∈ md.events, e2.id = e.id ∧ ∃ o c,
        e2.get_open_seconds = some o ∧ e2.get_close_seconds = some c ∧
        c < o) ∧
    (∀ i ∈ validate_mission_data fs md,
      i.message = "Event window closes before it opens" →
      i.level = "error" ∧ i.category = "events" ∧
        ∃ e2 ∈ md.events, (∃ o c, e2.get_open_seconds = some o ∧
          e2.get_close_seconds = some c ∧ c < o) ∧ i = windowIssue e2.id) := by
  have main : ∀ i ∈ validate_mission_data fs md,
      i.message = "Event window closes before it opens" →
      ∃ e2 ∈ md.events, (∃ o c, e2.get_open_seconds = some o ∧
        e2.get_close_seconds = some c ∧ c < o) ∧ i = windowIssue e2.id := by
    intro i hi hmsg
    have hraw := (mem_validate_iff fs md i).1 hi
    rcases mem_rawIssues_cases fs md i hraw with
      ⟨e2, he2, hev⟩ | ⟨pp, _, hcl⟩ | ⟨a, _, hap⟩ | ⟨pad, _, hpd⟩ |
      ⟨fl, _, hfl⟩ | hcm | hcs | hui | hau
    · unfold eventIssues at hev
      simp only [List.mem_append] at hev
      rcases hev with ((((hev | hev) | hev) | hev) | hev)
      · obtain ⟨o, c, ho, hc, hlt, hi2⟩ := (mem_eventWindowIssues e2 i).1 hev
        exact ⟨e2, he2, ⟨o, c, ho, hc, hlt⟩, hi2⟩
      · obtain ⟨p2, _, _, hi2⟩ := (mem_eventPrereqIssues _ e2 i).1 hev
        rw [hi2] at hmsg
        simp at hmsg
      · obtain ⟨aid, _, _, _, hi2⟩ := (mem_eventAutopilotIssues _ e2 i).1 hev
        rw [hi2] at hmsg
        simp at hmsg
      · obtain ⟨cid, _, _, _, hi2⟩ := (mem_eventChecklistIssues _ e2 i).1 hev
        rw [hi2] at hmsg
        simp at hmsg
      · obtain ⟨fid, _, _, _, hi2⟩ := (mem_eventFailureIssues _ e2 i).1 hev
        rw [hi2] at hmsg
        simp at hmsg
    · obtain ⟨_, _, hm, _⟩ := mem_checklistGroupIssues_shape _ i hcl
      rw [hmsg] at hm
      simp at hm
    · obtain ⟨_, hm⟩ := mem_autopilotIssues_shape _ _ i hap
      rw [hmsg] at hm
      simp at hm
    · obtain ⟨_, hm⟩ := mem_padIssues_shape _ i hpd
      rw [hmsg] at hm
      simp at hm
    · obtain ⟨_, hm⟩ := mem_failureIssues_shape _ i hfl
      rw [hmsg] at hm
      simp at hm
    · have hm := mem_commSchedule_msgs _ i hcm
      rw [hmsg] at hm
      simp at hm
    · obtain ⟨_, hm⟩ := mem_consumables_shape _ i hcs
      rw [hmsg] at hm
      simp at hm
    · have hm := mem_uiPacks_shape md i hui
      rw [hmsg] at hm
      simp at hm
    · have hm := mem_audioIssues_msgs md i hau
      rw [hmsg] at hm
      simp at hm
  constructor
  · constructor
    · intro hin
      obtain ⟨e2, he2, hw, hi2⟩ := main _ hin rfl
      have hid : e2.id = e.id := by
        have hctx := congrArg (fun j => j.context) hi2
        simp only [windowIssue, List.cons.injEq, Prod.mk.injEq,
          Json.str.injEq, true_and, and_true] at hctx
        exact hctx.symm
      exact ⟨e2, he2, hid, hw⟩
    · rintro ⟨e2, he2, hid, o, c, ho, hc, hlt⟩
      have h1 : windowIssue e2.id ∈ eventWindowIssues e2 :=
        (mem_eventWindowIssues e2 _).2 ⟨o, c, ho, hc, hlt, rfl⟩
      have h2 : windowIssue e2.id ∈
          eventIssues md.event_map md.checklist_index md.autopilot_map
            (md.failures.map (·.id)) e2 := by
        unfold eventIssues
        simp only [List.mem_append]
        exact Or.inl (Or.inl (Or.inl (Or.inl h1)))
      have h3 := (mem_validate_iff fs md _).2 (rawIssues_of_events fs md _
        (List.mem_flatMap.2 ⟨e2, he2, h2⟩))
      rw [hid] at h3
      exact h3
  · intro i hi hmsg
    obtain ⟨e2, he2, hw, hi2⟩ := main i hi hmsg
    subst hi2
    exact ⟨rfl, rfl, e2, he2, hw, rfl⟩

/-- C4 witness: on `mdC4` the window error for id `"E"` is present, via the
inverted sibling `evC4b`. -/
theorem event_window_iff_witness :
    windowIssue evC4a.id ∈ validate_mission_data noFs mdC4 :=
  (event_window_iff noFs mdC4 evC4a (by decide)).1.2
    ⟨evC4b, by decide, by decide, 10, 0, rfl, rfl, by decide⟩

theorem extractFailureIdFuel_spec (n : ℕ) :
    (∀ v : Json, sizeOf v ≤ n →
      extractFailureIdFuel n v = some (_extract_failure_id v)) ∧
    (∀ fields : List (String × Json), (∀ p ∈ fields, sizeOf p.2 < n) →
      extractFailureIdValuesFuel n fields =
        some (_extract_failure_id_values fields)) := by
  induction n with
  | zero =>
    constructor
    · intro v hv
      cases v <;> simp_all
    · intro fields hf
      cases fields with
      | nil => simp [extractFailureIdValuesFuel, _extract_failure_id_values]
      | cons p rest => exact absurd (hf p (List.mem_cons_self _ _)) (by omega)
  | succ n ih =>
    have h1 : ∀ v : Json, sizeOf v ≤ n + 1 →
        extractFailureIdFuel (n + 1) v = some (_extract_failure_id v) := by
      intro v hv
      cases v with
      | obj fields =>
        simp only [extractFailureIdFuel, _extract_failure_id]
        split
        · cases objGet fields "failure_id" <;> rfl
        · refine ih.2 fields fun p hp => ?_
          have hp1 := List.sizeOf_lt_of_mem hp
          have hp2 : sizeOf (Json.obj fields) = 1 + sizeOf fields := by simp
          have hp3 : sizeOf p.2 < sizeOf p := by
            cases p with
            | mk k v2 => simp
          omega
      | null => simp [extractFailureIdFuel, _extract_failure_id]
      | bool b => simp [extractFailureIdFuel, _extract_failure_id]
      | num q => simp [extractFailureIdFuel, _extract_failure_id]
      | str s => simp [extractFailureIdFuel, _extract_failure_id]
      | arr items => simp [extractFailureIdFuel, _extract_failure_id]
    refine ⟨h1, ?_⟩
    intro fields hf
    induction fields with
    | nil => simp [extractFailureIdValuesFuel, _extract_failure_id_values]
    | cons p rest ihf =>
      obtain ⟨k, v⟩ := p
      have hv : sizeOf v ≤ n + 1 := by
        have := hf (k, v) (List.mem_cons_self _ _)
        simp at this
        omega
      simp only [extractFailureIdValuesFuel, _extract_failure_id_values,
        h1 v hv]
      cases he : _extract_failure_id v with
      | none => exact ihf fun p hp => hf p (List.mem_cons_of_mem _ hp)
      | some s =>
        by_cases hs : s = ""
        · simp only [hs, if_pos rfl]
          exact ihf fun p hp => hf p (List.mem_cons_of_mem _ hp)
        · simp only [if_neg hs]

/-- C7: the recursive helper `_extract_failure_id` terminates on every finite
value: the fuel-indexed variant completes (never exhausts its fuel) as soon
as the fuel covers the size of the value, and agrees with the total
function. -/
theorem extract_failure_id_terminates (v : Json) (n : ℕ) (hn : sizeOf v ≤ n) :
    extractFailureIdFuel n v = some (_extract_failure_id v) :=
  (extractFailureIdFuel_spec n).1 v hn

/-- C7 witness: on a concrete nested effects object the fuel-indexed
recursion completes with the failure id. -/
theorem extract_failure_id_terminates_witness :
    extractFailureIdFuel 100000
        (.obj [("effects", .obj [("failure_id", .str "F1")])]) =
      some (_extract_failure_id
        (.obj [("effects", .obj [("failure_id", .str "F1")])])) :=
  extract_failure_id_terminates
    (.obj [("effects", .obj [("failure_id", .str "F1")])]) 100000 (by decide)

/-- C2 counterexample: two calls on the same mission data in different
environments (the autopilot script missing vs. present) return different
issue lists, so `validate_mission_data` is not a pure function of its
mission-data argument alone. -/
theorem validate_env_dependent :
    validate_mission_data noFs mdC2 ≠ validate_mission_data emptyScriptFs mdC2 := by
  decide

/-- C2 (amended): `validate_mission_data` is deterministic in its mission
data and the state of the filesystem at the autopilot script paths: two
calls on equal mission data in environments that agree on every autopilot's
`script_path` return equal issue lists. -/
theorem validate_deterministic (md : MissionData) (fs1 fs2 : FileSystem)
    (hagree : ∀ a ∈ md.autopilots, fs1 a.script_path = fs2 a.script_path) :
    validate_mission_data fs1 md = validate_mission_data fs2 md := by
  have hgen : ∀ l : List AutopilotRecord,
      (∀ a ∈ l, fs1 a.script_path = fs2 a.script_path) →
      l.flatMap (autopilotIssues fs1) = l.flatMap (autopilotIssues fs2) := by
    intro l
    induction l with
    | nil => intro _; rfl
    | cons a rest iha =>
      intro hl
      have ha : autopilotIssues fs1 a = autopilotIssues fs2 a := by
        unfold autopilotIssues
        rw [hl a (by simp)]
      simp only [List.flatMap_cons, ha,
        iha fun a2 ha2 => hl a2 (by simp [ha2])]
  unfold validate_mission_data rawIssues
  rw [hgen md.autopilots hagree]

/-- C2 witness: two distinct environments that agree on the one autopilot
script path produce the same validation result. -/
theorem validate_deterministic_witness :
    validate_mission_data noFs mdC2 =
      validate_mission_data (fun p => if p = "scripts/ap1.json" then .missing
        else .script []) mdC2 :=
  validate_deterministic mdC2 noFs _
    (fun a ha => by
      rcases List.mem_singleton.1 ha with rfl
      rfl)

/-- C8: the "Communications entry must be an object" branch is dead code:
`_normalize_communications_entries` has already dropped every non-object
entry before the per-entry loop runs, and no other check uses that
message. -/
theorem comm_entry_object_unreachable (fs : FileSystem) (md : MissionData) :
    ∀ i ∈ validate_mission_data fs md,
      i.message ≠ "Communications entry must be an object" := by
  intro i hi hmsg
  have hraw := (mem_validate_iff fs md i).1 hi
  rcases mem_rawIssues_cases fs md i hraw with
    ⟨e2, _, hev⟩ | ⟨pp, _, hcl⟩ | ⟨a, _, hap⟩ | ⟨pad, _, hpd⟩ |
    ⟨fl, _, hfl⟩ | hcm | hcs | hui | hau
  · have hm := mem_eventIssues_msgs _ _ _ _ e2 i hev
    rw [hmsg] at hm
    simp at hm
  · obtain ⟨_, _, hm, _⟩ := mem_checklistGroupIssues_shape _ i hcl
    rw [hmsg] at hm
    simp at hm
  · obtain ⟨_, hm⟩ := mem_autopilotIssues_shape _ _ i hap
    rw [hmsg] at hm
    simp at hm
  · obtain ⟨_, hm⟩ := mem_padIssues_shape _ i hpd
    rw [hmsg] at hm
    simp at hm
  · obtain ⟨_, hm⟩ := mem_failureIssues_shape _ i hfl
    rw [hmsg] at hm
    simp at hm
  · unfold _validate_communications_schedule at hcm
    split at hcm
    · simp only [List.mem_singleton] at hcm
      rw [hcm] at hmsg
      simp at hmsg
    · rename_i entries heq
      obtain ⟨entry, hentry, _, hm⟩ := mem_commScan_shape i _ _ _ _ hcm
      have hobj := normalize_all_obj md.communications entries heq entry hentry
      rcases hm with hm | hm | hm | hm | hm | hm |
        ⟨fields, _, o, c, _, _, _, hi2⟩ | hm | hm | ⟨hno, hm⟩
      · rw [hmsg] at hm; simp at hm
      · rw [hmsg] at hm; simp at hm
      · rw [hmsg] at hm; simp at hm
      · rw [hmsg] at hm; simp at hm
      · rw [hmsg] at hm; simp at hm
      · rw [hmsg] at hm; simp at hm
      · rw [hi2] at hmsg; simp [commWindowIssue] at hmsg
      · rw [hmsg] at hm; simp at hm
      · rw [hmsg] at hm; simp at hm
      · rw [hobj] at hno
        exact absurd hno (by simp)
  · obtain ⟨_, hm⟩ := mem_consumables_shape _ i hcs
    rw [hmsg] at hm
    simp at hm
  · have hm := mem_uiPacks_shape md i hui
    rw [hmsg] at hm
    simp at hm
  · have hm := mem_audioIssues_msgs md i hau
    rw [hmsg] at hm
    simp at hm

/-- C8 witness: applied to a concrete issue of a concrete run. -/
theorem comm_entry_object_unreachable_witness :
    ({ level := "error", category := "events",
       message := "Missing prerequisite reference",
       context := [("event_id", Json.str "E1"),
                   ("missing", Json.str "MISSING")] } :
      ValidationIssue).message ≠ "Communications entry must be an object" :=
  comm_entry_object_unreachable noFs mdC1 _ (by decide)

theorem dictGet?_of_mem_nodup {α : Type} (d : List (String × α))
    (hn : (d.map Prod.fst).Nodup) (p : String × α) (hp : p ∈ d) :
    dictGet? d p.1 = some p.2 := by
  induction d with
  | nil => simp at hp
  | cons q rest ih =>
    simp only [List.map_cons, List.nodup_cons] at hn
    rcases List.mem_cons.1 hp with rfl | hp2
    · obtain ⟨k, v⟩ := p
      simp [dictGet?]
    · have hk : q.1 ≠ p.1 := by
        intro he
        exact hn.1 (List.mem_map.2 ⟨p, hp2, he.symm⟩)
      obtain ⟨k, v⟩ := q
      simp only [dictGet?]
      rw [if_neg hk]
      exact ih hn.2 hp2

theorem dictGet?_mem {α : Type} (d : List (String × α)) (k : String) (v : α)
    (h : dictGet? d k = some v) : (k, v) ∈ d := by
  induction d with
  | nil => simp [dictGet?] at h
  | cons q rest ih =>
    obtain ⟨k2, v2⟩ := q
    by_cases hk : k2 = k
    · subst hk
      simp only [dictGet?, if_pos, Option.some.injEq] at h
      subst h
      exact List.mem_cons_self _ _
    · simp only [dictGet?] at h
      rw [if_neg hk] at h
      exact List.mem_cons_of_mem _ (ih h)

theorem map_fst_groupAdd (d : List (String × List ChecklistEntry))
    (k : String) (v : ChecklistEntry) :
    (groupAdd d k v).map Prod.fst =
      if k ∈ d.map Prod.fst then d.map Prod.fst else d.map Prod.fst ++ [k] := by
  induction d with
  | nil => simp [groupAdd]
  | cons q rest ih =>
    obtain ⟨k2, vs⟩ := q
    by_cases hk : k2 = k
    · subst hk
      simp [groupAdd]
    · have : ¬ k = k2 := fun he => hk he.symm
      simp only [groupAdd, if_neg hk, List.map_cons, ih, List.mem_cons]
      by_cases hm : k ∈ rest.map Prod.fst <;> simp [hm, this]

theorem checklist_index_keys_nodup (md : MissionData) :
    (md.checklist_index.map Prod.fst).Nodup := by
  unfold MissionData.checklist_index
  have hgen : ∀ (l : List ChecklistEntry)
      (d : List (String × List ChecklistEntry)),
      (d.map Prod.fst).Nodup →
      ((l.foldl (fun index entry => groupAdd index entry.checklist_id entry)
        d).map Prod.fst).Nodup := by
    intro l
    induction l with
    | nil => intro d hd; exact hd
    | cons e rest ih =>
      intro d hd
      rw [List.foldl_cons]
      refine ih _ ?_
      rw [map_fst_groupAdd]
      by_cases hm : e.checklist_id ∈ d.map Prod.fst
      · simpa [hm] using hd
      · rw [if_neg hm]
        simp [List.nodup_append, hd, hm]
  exact hgen md.checklists [] (by simp)

theorem intRange_length (start n : ℕ) : (intRange start n).length = n := by
  unfold intRange
  simp

theorem seqScan_eq_nil_iff (cid : String) :
    ∀ (l : List ℤ) (start : ℕ),
      seqScan cid start l = [] ↔ l = intRange start l.length := by
  intro l
  induction l with
  | nil => intro start; simp [seqScan, intRange]
  | cons n rest ih =>
    intro start
    unfold seqScan
    have hr : intRange start (n :: rest).length =
        Int.ofNat start :: intRange (start + 1) rest.length := by
      unfold intRange
      rw [List.length_cons, List.range'_succ, List.map_cons]
    rw [hr]
    by_cases hn : n ≠ (start : ℤ)
    · rw [if_pos hn]
      constructor
      · intro he; exact absurd he (by simp)
      · intro he
        rw [List.cons.injEq] at he
        exact absurd he.1 hn
    · rw [if_neg hn]
      push_neg at hn
      rw [ih (start + 1)]
      rw [List.cons.injEq]
      constructor
      · intro he; exact ⟨hn, he⟩
      · intro he; exact he.2

theorem seqScan_length_le_one (cid : String) :
    ∀ (l : List ℤ) (start : ℕ), (seqScan cid start l).length ≤ 1 := by
  intro l
  induction l with
  | nil => intro start; simp [seqScan]
  | cons n rest ih =>
    intro start
    unfold seqScan
    by_cases hn : n ≠ (start : ℤ)
    · rw [if_pos hn]; simp
    · rw [if_neg hn]; exact ih (start + 1)

theorem isSeqWarningFor_message {c : String} {i : ValidationIssue}
    (h : isSeqWarningFor c i = true) :
    i.message = "Checklist step numbers are not sequential" := by
  unfold isSeqWarningFor at h
  simp only [Bool.and_eq_true, beq_iff_eq] at h
  exact h.1.2

theorem isSeqWarningFor_of_mem (c : String) (p : String × List ChecklistEntry)
    (i : ValidationIssue) (h : i ∈ checklistGroupIssues p)
    (hpred : isSeqWarningFor c i = true) : p.1 = c := by
  obtain ⟨_, _, _, a, b, hctx⟩ := mem_checklistGroupIssues_shape p i h
  unfold isSeqWarningFor at hpred
  rw [hctx] at hpred
  simp at hpred
  exact hpred.2

theorem countP_checklist_groups (c : String) :
    ∀ idx : List (String × List ChecklistEntry),
      ((idx.map Prod.fst).Nodup) →
      (idx.flatMap checklistGroupIssues).countP (isSeqWarningFor c) ≤ 1 := by
  intro idx
  induction idx with
  | nil => intro _; simp
  | cons p rest ih =>
    intro hn
    simp only [List.flatMap_cons, List.countP_append]
    simp only [List.map_cons, List.nodup_cons] at hn
    by_cases hp : p.1 = c
    · have hrest : (rest.flatMap checklistGroupIssues).countP
          (isSeqWarningFor c) = 0 := by
        rw [List.countP_eq_zero]
        intro i hi
        rcases List.mem_flatMap.1 hi with ⟨p2, hp2, hip2⟩
        intro hpred
        have h3 := isSeqWarningFor_of_mem c p2 i hip2 hpred
        exact hn.1 (List.mem_map.2 ⟨p2, hp2, h3.trans hp.symm⟩)
      have hhead : (checklistGroupIssues p).countP (isSeqWarningFor c) ≤ 1 := by
        calc (checklistGroupIssues p).countP (isSeqWarningFor c)
            ≤ (checklistGroupIssues p).length := List.countP_le_length _
          _ ≤ 1 := seqScan_length_le_one p.1 _ 1
      omega
    · have hhead : (checklistGroupIssues p).countP (isSeqWarningFor c) = 0 := by
        rw [List.countP_eq_zero]
        intro i hi hpred
        exact hp (isSeqWarningFor_of_mem c p i hi hpred)
      have := ih hn.2
      omega

/-- C3: the step-sequence warning for a checklist id in the index is emitted
exactly when the ascending sort of that checklist's step numbers differs
from `1, 2, ..., n`, and at most one such warning is emitted per
checklist. -/
theorem checklist_sequential_iff (fs : FileSystem) (md : MissionData)
    (c : String) (steps : List ChecklistEntry)
    (hidx : dictGet? md.checklist_index c = some steps) :
    ((∃ i ∈ validate_mission_data fs md, isSeqWarningFor c i = true) ↔
      sortInts (steps.map (·.step_number)) ≠ intRange 1 steps.length) ∧
    (validate_mission_data fs md).countP (isSeqWarningFor c) ≤ 1 := by
  have hlen : (sortInts (steps.map (·.step_number))).length = steps.length := by
    unfold sortInts
    rw [(List.perm_insertionSort _ _).length_eq, List.length_map]
  constructor
  · constructor
    · rintro ⟨i, hi, hpred⟩
      have hraw := (mem_validate_iff fs md i).1 hi
      rcases mem_rawIssues_cases fs md i hraw with
        ⟨e2, _, hev⟩ | ⟨pp, hpp, hcl⟩ | ⟨a, _, hap⟩ | ⟨pad, _, hpd⟩ |
        ⟨fl, _, hfl⟩ | hcm | hcs | hui | hau
      · have hm := mem_eventIssues_msgs _ _ _ _ e2 i hev
        have hmsg := isSeqWarningFor_message hpred
        rw [hmsg] at hm
        simp at hm
      · have hc2 := isSeqWarningFor_of_mem c pp i hcl hpred
        have hget := dictGet?_of_mem_nodup md.checklist_index
          (checklist_index_keys_nodup md) pp hpp
        rw [hc2, hidx] at hget
        have hsteps : pp.2 = steps := by
          simpa using hget.symm
        intro habs
        unfold checklistGroupIssues at hcl
        rw [hc2, hsteps, habs] at hcl
        have hnil : seqScan c 1 (intRange 1 steps.length) = [] := by
          rw [seqScan_eq_nil_iff, intRange_length]
        rw [hnil] at hcl
        simp at hcl
      · have hmsg := isSeqWarningFor_message hpred
        obtain ⟨_, hm⟩ := mem_autopilotIssues_shape _ _ i hap
        rw [hmsg] at hm
        simp at hm
      · have hmsg := isSeqWarningFor_message hpred
        obtain ⟨_, hm⟩ := mem_padIssues_shape _ i hpd
        rw [hmsg] at hm
        simp at hm
      · have hmsg := isSeqWarningFor_message hpred
        obtain ⟨_, hm⟩ := mem_failureIssues_shape _ i hfl
        rw [hmsg] at hm
        simp at hm
      · have hmsg := isSeqWarningFor_message hpred
        have hm := mem_commSchedule_msgs _ i hcm
        rw [hmsg] at hm
        simp at hm
      · have hmsg := isSeqWarningFor_message hpred
        obtain ⟨_, hm⟩ := mem_consumables_shape _ i hcs
        rw [hmsg] at hm
        simp at hm
      · have hmsg := isSeqWarningFor_message hpred
        have hm := mem_uiPacks_shape md i hui
        rw [hmsg] at hm
        simp at hm
      · have hmsg := isSeqWarningFor_message hpred
        have hm := mem_audioIssues_msgs md i hau
        rw [hmsg] at hm
        simp at hm
    · intro hne
      have hmem : (c, steps) ∈ md.checklist_index := dictGet?_mem _ _ _ hidx
      have hne2 : seqScan c 1 (sortInts (steps.map (·.step_number))) ≠ [] := by
        intro he
        rw [seqScan_eq_nil_iff] at he
        rw [hlen] at he
        exact hne he
      obtain ⟨i, hi⟩ := List.exists_mem_of_ne_nil _ hne2
      have hshape := mem_seqScan c 1 _ i hi
      obtain ⟨hl, hc2, hm, a, b, hctx⟩ := hshape
      refine ⟨i, ?_, ?_⟩
      · refine (mem_validate_iff fs md i).2 (rawIssues_of_checklists fs md i ?_)
        exact List.mem_flatMap.2 ⟨(c, steps), hmem, hi⟩
      · unfold isSeqWarningFor
        rw [hl, hc2, hm, hctx]
        simp
  · rw [countP_validate]
    unfold rawIssues
    simp only [List.countP_append]
    have z1 : (md.events.flatMap
        (eventIssues md.event_map md.checklist_index md.autopilot_map
          (md.failures.map (·.id)))).countP (isSeqWarningFor c) = 0 := by
      rw [List.countP_eq_zero]
      intro i hi hpred
      rcases List.mem_flatMap.1 hi with ⟨e2, _, hev⟩
      have hm := mem_eventIssues_msgs _ _ _ _ e2 i hev
      have hmsg := isSeqWarningFor_message hpred
      rw [hmsg] at hm
      simp at hm
    have z3 : (md.autopilots.flatMap (autopilotIssues fs)).countP
        (isSeqWarningFor c) = 0 := by
      rw [List.countP_eq_zero]
      intro i hi hpred
      rcases List.mem_flatMap.1 hi with ⟨a, _, hap⟩
      obtain ⟨_, hm⟩ := mem_autopilotIssues_shape _ _ i hap
      have hmsg := isSeqWarningFor_message hpred
      rw [hmsg] at hm
      simp at hm
    have z4 : (md.pads.flatMap padIssues).countP (isSeqWarningFor c) = 0 := by
      rw [List.countP_eq_zero]
      intro i hi hpred
      rcases List.mem_flatMap.1 hi with ⟨pad, _, hpd⟩
      obtain ⟨_, hm⟩ := mem_padIssues_shape _ i hpd
      have hmsg := isSeqWarningFor_message hpred
      rw [hmsg] at hm
      simp at hm
    have z5 : (md.failures.flatMap failureIssues).countP
        (isSeqWarningFor c) = 0 := by
      rw [List.countP_eq_zero]
      intro i hi hpred
      rcases List.mem_flatMap.1 hi with ⟨fl, _, hfl⟩
      obtain ⟨_, hm⟩ := mem_failureIssues_shape _ i hfl
      have hmsg := isSeqWarningFor_message hpred
      rw [hmsg] at hm
      simp at hm
    have z6 : (_validate_communications_schedule md.communications).countP
        (isSeqWarningFor c) = 0 := by
      rw [List.countP_eq_zero]
      intro i hi hpred
      have hm := mem_commSchedule_msgs _ i hi
      have hmsg := isSeqWarningFor_message hpred
      rw [hmsg] at hm
      simp at hm
    have z7 : (_validate_consumables_pack md.consumables).countP
        (isSeqWarningFor c) = 0 := by
      rw [List.countP_eq_zero]
      intro i hi hpred
      obtain ⟨_, hm⟩ := mem_consumables_shape _ i hi
      have hmsg := isSeqWarningFor_message hpred
      rw [hmsg] at hm
      simp at hm
    have z8 : (_validate_ui_packs md).countP (isSeqWarningFor c) = 0 := by
      rw [List.countP_eq_zero]
      intro i hi hpred
      have hm := mem_uiPacks_shape md i hi
      have hmsg := isSeqWarningFor_message hpred
      rw [hmsg] at hm
      simp at hm
    have z9 : (audioIssues md).countP (isSeqWarningFor c) = 0 := by
      rw [List.countP_eq_zero]
      intro i hi hpred
      have hm := mem_audioIssues_msgs md i hi
      have hmsg := isSeqWarningFor_message hpred
      rw [hmsg] at hm
      simp at hm
    have z2 := countP_checklist_groups c md.checklist_index
      (checklist_index_keys_nodup md)
    omega

/-- C3 witness: checklist `"C1"` of `mdC9` has step numbers `[2]`, so its
non-sequential warning is present. -/
theorem checklist_sequential_iff_witness :
    ∃ i ∈ validate_mission_data noFs mdC9, isSeqWarningFor "C1" i = true :=
  (checklist_sequential_iff noFs mdC9 "C1"
      [{ checklist_id := "C1", title := "a", nominal_get := none
         crew_role := none, step_number := 2, action := "x"
         expected_response := none, reference := none, raw := [] }]
      (by decide)).1.2 (by decide)

/-- C6: with the audio pack present, a category with a non-empty id and a
non-empty bus reference yields the unknown-bus error exactly when no bus in
the pack carries that id. -/
theorem audio_unknown_bus_iff (fs : FileSystem) (md : MissionData)
    (pack : AudioCuePack) (category : AudioCategory) (b : String)
    (hp : md.audio_cues = some pack) (hc : category ∈ pack.categories)
    (hid : category.id ≠ "") (hb : category.bus = some b) (hbne : b ≠ "") :
    unknownBusIssue category.id b ∈ validate_mission_data fs md ↔
      ¬ ∃ bus ∈ pack.buses, bus.id = b := by
  have hunfold : audioIssues md =
      (audioBusScan [] pack.buses).1 ++
        pack.buses.flatMap (audioDuckingIssues (audioBusScan [] pack.buses).2) ++
        (audioCategoryScan (audioBusScan [] pack.buses).2 []
          pack.categories).1 ++
        audioCueScan (audioCategoryScan (audioBusScan [] pack.buses).2 []
          pack.categories).2 [] pack.cues := by
    unfold audioIssues
    rw [hp]
  constructor
  · intro hin
    rintro ⟨bus, hbus, hbid⟩
    have hraw := (mem_validate_iff fs md _).1 hin
    rcases mem_rawIssues_cases fs md _ hraw with
      ⟨e2, _, hev⟩ | ⟨pp, _, hcl⟩ | ⟨a, _, hap⟩ | ⟨pad, _, hpd⟩ |
      ⟨fl, _, hfl⟩ | hcm | hcs | hui | hau
    · have hm := mem_eventIssues_msgs _ _ _ _ e2 _ hev
      simp [unknownBusIssue] at hm
    · obtain ⟨_, _, hm, _⟩ := mem_checklistGroupIssues_shape _ _ hcl
      simp [unknownBusIssue] at hm
    · obtain ⟨_, hm⟩ := mem_autopilotIssues_shape _ _ _ hap
      simp [unknownBusIssue] at hm
    · obtain ⟨_, hm⟩ := mem_padIssues_shape _ _ hpd
      simp [unknownBusIssue] at hm
    · obtain ⟨_, hm⟩ := mem_failureIssues_shape _ _ hfl
      simp [unknownBusIssue] at hm
    · have hm := mem_commSchedule_msgs _ _ hcm
      simp [unknownBusIssue] at hm
    · obtain ⟨_, hm⟩ := mem_consumables_shape _ _ hcs
      simp [unknownBusIssue] at hm
    · have hm := mem_uiPacks_shape md _ hui
      simp [unknownBusIssue] at hm
    · rw [hunfold] at hau
      simp only [List.mem_append] at hau
      rcases hau with ((hau | hau) | hau) | hau
      · obtain ⟨_, hm⟩ := mem_audioBusScan_shape _ _ _ hau
        simp [unknownBusIssue] at hm
      · rcases List.mem_flatMap.1 hau with ⟨bus2, _, h2⟩
        obtain ⟨_, hm⟩ := mem_audioDuckingIssues_shape _ _ _ h2
        simp [unknownBusIssue] at hm
      · obtain ⟨_, hm⟩ := mem_audioCategoryScan_shape _ _ _ _ hau
        rcases hm with hm | hm | ⟨cat2, _, _, b2, _, _, hnk2, hi2⟩
        · simp [unknownBusIssue] at hm
        · simp [unknownBusIssue] at hm
        · have hctx := congrArg (fun j => j.context) hi2
          simp only [unknownBusIssue, List.cons.injEq, Prod.mk.injEq,
            Json.str.injEq, true_and, and_true] at hctx
          have hb2 : b2 = b := hctx.2.symm
          subst hb2
          exact hnk2 ((mem_audioBusScan_ids [] pack.buses b2).2
            (Or.inr ⟨bus, hbus, hbid, hbid ▸ hbne⟩))
      · obtain ⟨_, hm⟩ := mem_audioCueScan_shape _ _ _ _ hau
        simp [unknownBusIssue] at hm
  · intro hnot
    have hnk : b ∉ (audioBusScan [] pack.buses).2 := by
      rw [mem_audioBusScan_ids]
      rintro (hfalse | ⟨bus, hbus, hbid, _⟩)
      · simp at hfalse
      · exact hnot ⟨bus, hbus, hbid⟩
    have h1 := audioCategoryScan_complete (audioBusScan [] pack.buses).2
      pack.categories category b hc hid hb hbne hnk []
    have h2 : unknownBusIssue category.id b ∈ audioIssues md := by
      rw [hunfold]
      simp only [List.mem_append]
      exact Or.inl (Or.inr h1)
    exact (mem_validate_iff fs md _).2 (rawIssues_of_audio fs md _ h2)

/-- C6 witness: the dangling bus reference of `catC6` is reported. -/
theorem audio_unknown_bus_iff_witness :
    unknownBusIssue "CAT" "B1" ∈ validate_mission_data noFs mdC6 :=
  (audio_unknown_bus_iff noFs mdC6 packC6 catC6 "B1" rfl (by decide)
    (by decide) rfl (by decide)).2 (by decide)

theorem parseGetValue_of_ok {v : Json} {o : ℚ}
    (h : parse_get v = .ok (some o)) : parseGetValue v = some o := by
  unfold parseGetValue
  rw [h]

/-- C5: a normalized communications entry whose `get_open` and `get_close`
both parse to seconds yields the window error exactly when the close time is
strictly below the open time. -/
theorem comm_window_iff (fs : FileSystem) (md : MissionData)
    (entries : List Json) (fields : List (String × Json)) (o c : ℚ)
    (hn : _normalize_communications_entries md.communications = some entries)
    (he : Json.obj fields ∈ entries)
    (ho : parse_get (objGet fields "get_open") = .ok (some o))
    (hc : parse_get (objGet fields "get_close") = .ok (some c)) :
    commWindowIssue fields ∈ validate_mission_data fs md ↔ c < o := by
  have hsched : _validate_communications_schedule md.communications =
      commScan [] none 0 entries := by
    unfold _validate_communications_schedule
    rw [hn]
  constructor
  · intro hin
    have hraw := (mem_validate_iff fs md _).1 hin
    rcases mem_rawIssues_cases fs md _ hraw with
      ⟨e2, _, hev⟩ | ⟨pp, _, hcl⟩ | ⟨a, _, hap⟩ | ⟨pad, _, hpd⟩ |
      ⟨fl, _, hfl⟩ | hcm | hcs | hui | hau
    · have hm := mem_eventIssues_msgs _ _ _ _ e2 _ hev
      simp [commWindowIssue] at hm
    · obtain ⟨_, _, hm, _⟩ := mem_checklistGroupIssues_shape _ _ hcl
      simp [commWindowIssue] at hm
    · obtain ⟨_, hm⟩ := mem_autopilotIssues_shape _ _ _ hap
      simp [commWindowIssue] at hm
    · obtain ⟨_, hm⟩ := mem_padIssues_shape _ _ hpd
      simp [commWindowIssue] at hm
    · obtain ⟨_, hm⟩ := mem_failureIssues_shape _ _ hfl
      simp [commWindowIssue] at hm
    · rw [hsched] at hcm
      obtain ⟨entry, _, _, hm⟩ := mem_commScan_shape _ _ _ _ _ hcm
      rcases hm with hm | hm | hm | hm | hm | hm |
        ⟨fields2, _, o2, c2, ho2, hc2, hlt2, hi2⟩ | hm | hm | ⟨_, hm⟩
      · simp [commWindowIssue] at hm
      · simp [commWindowIssue] at hm
      · simp [commWindowIssue] at hm
      · simp [commWindowIssue] at hm
      · simp [commWindowIssue] at hm
      · simp [commWindowIssue] at hm
      · have hctx := congrArg (fun j => j.context) hi2
        simp only [commWindowIssue, List.cons.injEq, Prod.mk.injEq, true_and,
          and_true] at hctx
        obtain ⟨-, hopen, hclose⟩ := hctx
        rw [← hopen] at ho2
        rw [← hclose] at hc2
        rw [parseGetValue_of_ok ho] at ho2
        rw [parseGetValue_of_ok hc] at hc2
        have ho3 : o2 = o := by simpa using ho2.symm
        have hc3 : c2 = c := by simpa using hc2.symm
        rw [ho3, hc3] at hlt2
        exact hlt2
      · simp [commWindowIssue] at hm
      · simp [commWindowIssue] at hm
      · simp [commWindowIssue] at hm
    · obtain ⟨_, hm⟩ := mem_consumables_shape _ _ hcs
      simp [commWindowIssue] at hm
    · have hm := mem_uiPacks_shape md _ hui
      simp [commWindowIssue] at hm
    · have hm := mem_audioIssues_msgs md _ hau
      simp [commWindowIssue] at hm
  · intro hlt
    have h1 := commScan_window_complete entries fields o c he
      (parseGetValue_of_ok ho) (parseGetValue_of_ok hc) hlt [] none 0
    refine (mem_validate_iff fs md _).2 (rawIssues_of_comm fs md _ ?_)
    rw [hsched]
    exact h1

/-- C5 witness: the inverted window of `commEntryC5` is reported. -/
theorem comm_window_iff_witness :
    commWindowIssue commEntryC5 ∈ validate_mission_data noFs mdC5 :=
  (comm_window_iff noFs mdC5 [.obj commEntryC5] commEntryC5 3600 1800
    (by decide) (by decide)
    (by simp +decide [commEntryC5, objGet, parse_get, pyStrip, pySpace,
      parseGetChars, splitOnChar, digitsVal, twoDigitOK, allDigits])
    (by simp +decide [commEntryC5, objGet, parse_get, pyStrip, pySpace,
      parseGetChars, splitOnChar, digitsVal, twoDigitOK, allDigits]; norm_num)).2
    (by decide)

/-! #### C10: GET format/parse round trip -/

theorem digitChar_isDigit {k : ℕ} (h : k < 10) :
    (Nat.digitChar k).isDigit = true := by
  interval_cases k <;> decide

theorem digitChar_toNat {k : ℕ} (h : k < 10) :
    (Nat.digitChar k).toNat - 48 = k := by
  interval_cases k <;> decide

theorem digitChar_le_five {k : ℕ} (h : k ≤ 5) : Nat.digitChar k ≤ '5' := by
  interval_cases k <;> decide

theorem digit_not_space {c : Char} (h : c.isDigit = true) : pySpace c = false := by
  simp only [pySpace, Bool.or_eq_false_iff, decide_eq_false_iff_not]
  refine ⟨⟨⟨⟨⟨?_, ?_⟩, ?_⟩, ?_⟩, ?_⟩, ?_⟩ <;> rintro rfl <;> exact absurd h (by decide)

theorem digitsVal_snoc (cs : List Char) (c : Char) :
    digitsVal (cs ++ [c]) = 10 * digitsVal cs + (c.toNat - 48) := by
  simp [digitsVal, List.foldl_append]

theorem digitsVal_pad (k : ℕ) (cs : List Char) :
    digitsVal (List.replicate k '0' ++ cs) = digitsVal cs := by
  induction k with
  | zero => rfl
  | succ k ih =>
      simp only [List.replicate_succ, List.cons_append, digitsVal, List.foldl_cons]
      simpa [digitsVal] using ih

theorem digitsVal_natChars (n : ℕ) : digitsVal (natChars n) = n := by
  induction n using Nat.strong_induction_on with
  | _ n ih =>
    rw [natChars]
    split
    · rename_i h
      show digitsVal [Nat.digitChar n] = n
      simp [digitsVal, digitChar_toNat h]
    · rename_i h
      rw [digitsVal_snoc, ih (n / 10) (Nat.div_lt_self (by omega) (by omega)),
        digitChar_toNat (Nat.mod_lt _ (by omega))]
      omega

theorem digitsVal_padChars (w : ℕ) (n : ℕ) :
    digitsVal (padChars w (natChars n)) = n := by
  rw [padChars, digitsVal_pad, digitsVal_natChars]

theorem natChars_ne_nil (n : ℕ) : natChars n ≠ [] := by
  rw [natChars]
  split <;> simp

theorem mem_natChars_isDigit {n : ℕ} {c : Char} (h : c ∈ natChars n) :
    c.isDigit = true := by
  induction n using Nat.strong_induction_on with
  | _ n ih =>
    rw [natChars] at h
    split at h
    · rename_i hlt
      simp at h
      exact h ▸ digitChar_isDigit hlt
    · rename_i hge
      rcases List.mem_append.1 h with h1 | h1
      · exact ih (n / 10) (Nat.div_lt_self (by omega) (by omega)) h1
      · simp at h1
        exact h1 ▸ digitChar_isDigit (Nat.mod_lt _ (by omega))

theorem natChars_lt_ten {n : ℕ} (h : n < 10) :
    natChars n = [Nat.digitChar n] := by
  rw [natChars]
  exact dif_pos h

theorem natChars_two_digit {n : ℕ} (h1 : 10 ≤ n) (h2 : n < 100) :
    natChars n = [Nat.digitChar (n / 10), Nat.digitChar (n % 10)] := by
  rw [natChars, dif_neg (by omega), natChars_lt_ten (by omega)]
  rfl

theorem mem_padChars_natChars {w n : ℕ} {c : Char}
    (h : c ∈ padChars w (natChars n)) : c.isDigit = true := by
  rcases List.mem_append.1 h with h1 | h1
  · rw [List.eq_of_mem_replicate h1]; decide
  · exact mem_natChars_isDigit h1

theorem twoDigitOK_pad {n : ℕ} (h : n < 60) :
    twoDigitOK (padChars 2 (natChars n)) = true := by
  by_cases h10 : n < 10
  · rw [natChars_lt_ten h10]
    show twoDigitOK ['0', Nat.digitChar n] = true
    simp [twoDigitOK, digitChar_isDigit h10]
  · rw [natChars_two_digit (by omega) (by omega)]
    show twoDigitOK [Nat.digitChar (n / 10), Nat.digitChar (n % 10)] = true
    simp [twoDigitOK, digitChar_isDigit (show n / 10 < 10 by omega),
      digitChar_isDigit (show n % 10 < 10 by omega),
      digitChar_le_five (show n / 10 ≤ 5 by omega)]

theorem allDigits_padChars (w n : ℕ) :
    allDigits (padChars w (natChars n)) = true := by
  rw [allDigits, List.all_eq_true]
  intro c hc
  exact mem_padChars_natChars hc

theorem splitOnChar_no_sep {sep : Char} :
    ∀ {cs : List Char}, sep ∉ cs → splitOnChar sep cs = [cs]
  | [], _ => rfl
  | c :: rest, h => by
    have hc : ¬(c = sep) := fun he => h (he ▸ List.mem_cons_self c rest)
    have hr : sep ∉ rest := fun hm => h (List.mem_cons_of_mem _ hm)
    rw [splitOnChar]
    simp only [if_neg hc, splitOnChar_no_sep hr]

theorem splitOnChar_sep_append {sep : Char} :
    ∀ {a : List Char} (rest : List Char), sep ∉ a →
      splitOnChar sep (a ++ sep :: rest) = a :: splitOnChar sep rest
  | [], rest, _ => by
      rw [List.nil_append, splitOnChar]
      simp
  | c :: t, rest, h => by
      have hc : ¬(c = sep) := fun he => h (he ▸ List.mem_cons_self c t)
      have ht : sep ∉ t := fun hm => h (List.mem_cons_of_mem _ hm)
      rw [List.cons_append, splitOnChar]
      simp only [if_neg hc, splitOnChar_sep_append rest ht]

theorem dropWhile_eq_self_of_all {p : Char → Bool} :
    ∀ (l : List Char), (∀ c ∈ l, p c = false) → l.dropWhile p = l
  | [], _ => rfl
  | c :: t, h => by
    have hc := h c (List.mem_cons_self c t)
    simp [List.dropWhile_cons, hc]

theorem pyStrip_eq_self (s : String) (h : ∀ c ∈ s.data, pySpace c = false) :
    pyStrip s = s := by
  rw [pyStrip, dropWhile_eq_self_of_all s.data h,
    dropWhile_eq_self_of_all s.data.reverse (fun c hc => h c (List.mem_reverse.1 hc)),
    List.reverse_reverse]

theorem floor_div_toNat (n d : ℕ) : (⌊(n : ℚ) / (d : ℚ)⌋).toNat = n / d := by
  rw [Int.floor_toNat]
  exact_mod_cast Nat.floor_div_nat (n : ℚ) d

theorem bankersRound_natCast (n : ℕ) : bankersRound (n : ℚ) = n := by
  rw [bankersRound]
  simp [Int.floor_natCast]

theorem strmk_append (a b : List Char) : (⟨a⟩ : String) ++ ⟨b⟩ = ⟨a ++ b⟩ := rfl

theorem strmk_empty : ("" : String) = ⟨[]⟩ := rfl

theorem strmk_colon : (":" : String) = ⟨[':']⟩ := rfl

theorem format_get_eq (n : ℕ) :
    format_get (n : ℚ) 3 =
      ⟨padChars 3 (natChars (n / 3600)) ++ ':' ::
        (padChars 2 (natChars (n % 3600 / 60)) ++ ':' ::
          padChars 2 (natChars (n % 3600 % 60)))⟩ := by
  have hsign : ¬((n : ℚ) < 0) := not_lt.2 (Nat.cast_nonneg n)
  have habs : |(n : ℚ)| = (n : ℚ) := abs_of_nonneg (Nat.cast_nonneg n)
  have hh : (⌊(n : ℚ) / 3600⌋).toNat = n / 3600 := by
    have := floor_div_toNat n 3600
    norm_num at this ⊢
    exact this
  have hrem : (n : ℚ) - ((n / 3600 : ℕ) : ℚ) * 3600 = ((n % 3600 : ℕ) : ℚ) := by
    have h1 : 3600 * (n / 3600) + n % 3600 = n := Nat.div_add_mod n 3600
    have h2 : ((3600 * (n / 3600) + n % 3600 : ℕ) : ℚ) = (n : ℚ) := by
      exact_mod_cast congrArg (Nat.cast : ℕ → ℚ) h1
    push_cast at h2
    linarith
  have hm : (⌊((n % 3600 : ℕ) : ℚ) / 60⌋).toNat = n % 3600 / 60 := by
    have := floor_div_toNat (n % 3600) 60
    norm_num at this ⊢
    exact this
  have hrem2 : ((n % 3600 : ℕ) : ℚ) - ((n % 3600 / 60 : ℕ) : ℚ) * 60
      = ((n % 3600 % 60 : ℕ) : ℚ) := by
    have h1 : 60 * (n % 3600 / 60) + n % 3600 % 60 = n % 3600 :=
      Nat.div_add_mod (n % 3600) 60
    have h2 : ((60 * (n % 3600 / 60) + n % 3600 % 60 : ℕ) : ℚ)
        = ((n % 3600 : ℕ) : ℚ) := by
      exact_mod_cast congrArg (Nat.cast : ℕ → ℚ) h1
    push_cast at h2 ⊢
    linarith
  have hsec : (bankersRound ((n % 3600 % 60 : ℕ) : ℚ)).toNat = n % 3600 % 60 := by
    rw [bankersRound_natCast]
    exact Int.toNat_natCast _
  have hslt : ¬(n % 3600 % 60 ≥ 60) := by omega
  have hmlt : ¬(n % 3600 / 60 ≥ 60) := by omega
  delta format_get
  rw [if_neg hsign, habs]
  dsimp only
  rw [hh, hrem, hm, hrem2, hsec, if_neg hslt]
  dsimp only
  rw [if_neg hmlt]
  dsimp only
  rw [strmk_empty, strmk_colon, strmk_append, strmk_append, strmk_append,
    strmk_append, strmk_append]
  apply congrArg
  simp

theorem parse_roundtrip_chars (n : ℕ) :
    parseGetChars (padChars 3 (natChars (n / 3600)) ++ ':' ::
        (padChars 2 (natChars (n % 3600 / 60)) ++ ':' ::
          padChars 2 (natChars (n % 3600 % 60)))) = some (n : ℚ) := by
  have hcolonA : ':' ∉ padChars 3 (natChars (n / 3600)) :=
    fun hm => absurd (mem_padChars_natChars hm) (by decide)
  have hcolonB : ':' ∉ padChars 2 (natChars (n % 3600 / 60)) :=
    fun hm => absurd (mem_padChars_natChars hm) (by decide)
  have hcolonC : ':' ∉ padChars 2 (natChars (n % 3600 % 60)) :=
    fun hm => absurd (mem_padChars_natChars hm) (by decide)
  have hdotC : '.' ∉ padChars 2 (natChars (n % 3600 % 60)) :=
    fun hm => absurd (mem_padChars_natChars hm) (by decide)
  have hsplit : splitOnChar ':' (padChars 3 (natChars (n / 3600)) ++ ':' ::
      (padChars 2 (natChars (n % 3600 / 60)) ++ ':' ::
        padChars 2 (natChars (n % 3600 % 60)))) =
      [padChars 3 (natChars (n / 3600)), padChars 2 (natChars (n % 3600 / 60)),
        padChars 2 (natChars (n % 3600 % 60))] := by
    rw [splitOnChar_sep_append _ hcolonA, splitOnChar_sep_append _ hcolonB,
      splitOnChar_no_sep hcolonC]
  have hAne : padChars 3 (natChars (n / 3600)) ≠ [] := by
    simp [padChars, natChars_ne_nil]
  have hAdig := allDigits_padChars 3 (n / 3600)
  have hBok := twoDigitOK_pad (show n % 3600 / 60 < 60 by omega)
  have hCok := twoDigitOK_pad (show n % 3600 % 60 < 60 by omega)
  have hsplit2 : splitOnChar '.' (padChars 2 (natChars (n % 3600 % 60))) =
      [padChars 2 (natChars (n % 3600 % 60))] := splitOnChar_no_sep hdotC
  have hcond : padChars 3 (natChars (n / 3600)) ≠ [] ∧
      allDigits (padChars 3 (natChars (n / 3600))) = true ∧
      twoDigitOK (padChars 2 (natChars (n % 3600 / 60))) = true :=
    ⟨hAne, hAdig, hBok⟩
  have h1 : n / 3600 * 3600 + n % 3600 / 60 * 60 + n % 3600 % 60 = n := by omega
  rw [parseGetChars, hsplit]
  simp only [hsplit2, digitsVal_padChars]
  rw [if_pos hcond, if_pos hCok]
  simp only [Option.some.injEq]
  exact_mod_cast h1

/-- C10: for every non-negative integer number of seconds `n`, formatting `n`
as a canonical `HHH:MM:SS` GET string with `format_get` at the default
precision and zero-padding and parsing it back with `parse_get` returns
exactly `n`. -/
theorem get_roundtrip (n : ℕ) :
    parse_get (.str (format_get (n : ℚ) 3)) = .ok (some (n : ℚ)) := by
  rw [format_get_eq]
  have hmem : ∀ c ∈ padChars 3 (natChars (n / 3600)) ++ ':' ::
      (padChars 2 (natChars (n % 3600 / 60)) ++ ':' ::
        padChars 2 (natChars (n % 3600 % 60))), pySpace c = false := by
    intro c hc
    rcases List.mem_append.1 hc with h1 | h1
    · exact digit_not_space (mem_padChars_natChars h1)
    · rcases List.mem_cons.1 h1 with h2 | h2
      · rw [h2]; decide
      · rcases List.mem_append.1 h2 with h3 | h3
        · exact digit_not_space (mem_padChars_natChars h3)
        · rcases List.mem_cons.1 h3 with h4 | h4
          · rw [h4]; decide
          · exact digit_not_space (mem_padChars_natChars h4)
  have hstrip := pyStrip_eq_self _ hmem
  have hne : (⟨padChars 3 (natChars (n / 3600)) ++ ':' ::
      (padChars 2 (natChars (n % 3600 / 60)) ++ ':' ::
        padChars 2 (natChars (n % 3600 % 60)))⟩ : String) ≠ "" := by
    intro h
    rw [strmk_empty] at h
    injection h with h2
    simp at h2
  delta parse_get
  dsimp only
  rw [hstrip, if_neg hne]
  have hdata : (⟨padChars 3 (natChars (n / 3600)) ++ ':' ::
      (padChars 2 (natChars (n % 3600 / 60)) ++ ':' ::
        padChars 2 (natChars (n % 3600 % 60)))⟩ : String).data =
      padChars 3 (natChars (n / 3600)) ++ ':' ::
      (padChars 2 (natChars (n % 3600 / 60)) ++ ':' ::
        padChars 2 (natChars (n % 3600 % 60))) := rfl
  rw [hdata, parse_roundtrip_chars n]


/-- C9: the list returned by `validate_mission_data` is sorted in
non-decreasing order by the `(level, category, message)` triple, and in
particular no `"warning"`-level issue ever precedes an `"error"`-level
issue. -/
theorem validate_mission_data_sorted (fs : FileSystem) (md : MissionData) :
    (validate_mission_data fs md).Sorted issueLe ∧
      ∀ (i j : Fin (validate_mission_data fs md).length), i < j →
        ((validate_mission_data fs md).get i).level = "warning" →
        ((validate_mission_data fs md).get j).level ≠ "error" := by
  have hs : (validate_mission_data fs md).Sorted issueLe := by
    unfold validate_mission_data sortIssues
    exact List.sorted_insertionSort issueLe (rawIssues fs md)
  refine ⟨hs, ?_⟩
  intro i j hij hw he
  have hle : issueLe ((validate_mission_data fs md).get i)
      ((validate_mission_data fs md).get j) := hs.rel_get_of_lt hij
  unfold issueLe at hle
  rw [hw, he] at hle
  rcases hle with hlt | ⟨heq, _⟩
  · exact absurd hlt (by decide)
  · exact absurd heq (by decide)

/-- C9 witness: on concrete data with two warnings, the issue after a
warning is not an error. -/
theorem validate_mission_data_sorted_witness :
    ((validate_mission_data noFs mdC9).get
        ⟨1, by decide⟩).level ≠ "error" := by
  refine (validate_mission_data_sorted noFs mdC9).2 ⟨0, by decide⟩ ⟨1, by decide⟩
    (by decide) (by decide)

end Ingest
